import Mathlib

/-!
# Verification of the colors-le color engine

A shallow embedding, in Lean 4, of the color detection / conversion /
palette-analysis core of the `colors-le` repository, together with proofs
about the claims of its specification.

Strings are modelled as `List Char` (with `String` wrappers at the API
boundary); JavaScript numbers are modelled as `ℚ` with explicit rounding
(`Math.round` is round-half-toward-positive-infinity).  JavaScript regular
expressions are translated, pattern by pattern, into deterministic scanners
over `List Char`; where a pattern's backtracking matters the scanner mirrors
the engine's ordered-alternative / greedy semantics, as noted at each
definition.  `NaN` results of `parseInt` / `parseFloat` (possible only on
inputs outside every claim considered here) are modelled as parse failure.
-/

namespace ColorsLE

/-! ## JS number and string primitives -/

/-- JS `Math.round`: round half toward positive infinity. -/
def jsRound (q : ℚ) : ℤ := ⌊q + 1/2⌋

/-- Truncation toward zero, as used by the JS `%` operator. -/
def qTrunc (q : ℚ) : ℤ := if 0 ≤ q then ⌊q⌋ else ⌈q⌉

/-- JS remainder operator `a % b` on numbers (sign of the dividend). -/
def jsMod (a b : ℚ) : ℚ := a - b * (qTrunc (a / b) : ℚ)

/-- The whitespace characters recognised by JS `\s` / `String.trim`
(ASCII whitespace plus NBSP; further Unicode space characters are not
modelled — none occurs in any claim). -/
def isJsSpace (c : Char) : Bool :=
  c == ' ' || c == '\t' || c == '\n' || c == '\r' ||
    c.toNat == 11 || c.toNat == 12 || c.toNat == 160

/-- Decimal digit, the JS regex class `\d`. -/
def isDigit (c : Char) : Bool := 48 ≤ c.toNat && c.toNat ≤ 57

/-- Value of a hexadecimal digit (either case), `none` otherwise. -/
def hexVal (c : Char) : Option ℕ :=
  if 48 ≤ c.toNat ∧ c.toNat ≤ 57 then some (c.toNat - 48)
  else if 97 ≤ c.toNat ∧ c.toNat ≤ 102 then some (c.toNat - 87)
  else if 65 ≤ c.toNat ∧ c.toNat ≤ 70 then some (c.toNat - 55)
  else none

def isHexDigit (c : Char) : Bool := (hexVal c).isSome

/-- The JS regex word class `\w` = `[A-Za-z0-9_]`. -/
def isWordChar (c : Char) : Bool := c.isAlpha || isDigit c || c == '_'

/-- ASCII letter `[a-zA-Z]` (used by case-insensitive `[a-z]+`). -/
def isAsciiLetter (c : Char) : Bool := c.isAlpha

/-- Lowercase ASCII letter `[a-z]`. -/
def isLowerLetter (c : Char) : Bool := 97 ≤ c.toNat && c.toNat ≤ 122

/-- JS `String.prototype.trim` (over the modelled whitespace set). -/
def trimL (l : List Char) : List Char :=
  ((l.dropWhile isJsSpace).reverse.dropWhile isJsSpace).reverse

/-- JS `String.prototype.toLowerCase` (ASCII range; no claim involves
non-ASCII case mapping). -/
def lowerL (l : List Char) : List Char := l.map Char.toLower

def startsWithL (p l : List Char) : Bool := p.isPrefixOf l

/-- Does `pat` occur in `l` starting at position `i`? -/
def matchesAt (pat l : List Char) (i : ℕ) : Bool := pat.isPrefixOf (l.drop i)

/-- JS `String.prototype.includes`. -/
def containsSub (pat l : List Char) : Bool :=
  (List.range (l.length + 1)).any (matchesAt pat l)

/-- JS `String.prototype.lastIndexOf`: the greatest start position of an
occurrence, `-1` if there is none. -/
def lastIndexOfSub (pat l : List Char) : ℤ :=
  match ((List.range (l.length + 1)).filter (matchesAt pat l)).getLast? with
  | some i => (i : ℤ)
  | none => -1

/-- JS `String.prototype.split('\n')`: split at every newline, keeping
empty pieces. -/
def splitOnNl : List Char → List (List Char)
  | [] => [[]]
  | c :: t =>
    let r := splitOnNl t
    if c == '\n' then [] :: r
    else
      match r with
      | h :: t2 => (c :: h) :: t2
      | [] => [[c]]

/-- Numeric value of a list of decimal digits (the captured group of a
`(\d+)`), as consumed by `parseInt(_, 10)`. -/
def natOfDigits (l : List Char) : ℕ := l.foldl (fun a c => 10 * a + (c.toNat - 48)) 0

/-- JS `parseInt(s, 16)` on the 2-character slices used by `parseHex`:
an optional `0x`/`0X` prefix followed by the longest prefix of hex digits;
an empty digit sequence gives `NaN`, modelled as `none`.  (Leading
whitespace and signs never occur on these slices.) -/
def jsParseIntHex (l : List Char) : Option ℕ :=
  let body : List Char :=
    match l with
    | '0' :: x :: rest => if x == 'x' || x == 'X' then rest else l
    | _ => l
  let ds := body.takeWhile isHexDigit
  if ds.isEmpty then none
  else some (ds.foldl (fun a c => 16 * a + ((hexVal c).getD 0)) 0)

/-- JS `parseFloat` on the captured groups of `([\d.]+)`:
`[digits][.digits]`; `NaN` (no digit consumed) is modelled as `none`.
Signs and exponents never occur in such a group. -/
def jsParseFloat (l : List Char) : Option ℚ :=
  let ip := l.takeWhile isDigit
  let rest := l.drop ip.length
  let fp : List Char :=
    match rest with
    | '.' :: r => r.takeWhile isDigit
    | _ => []
  if ip.isEmpty && fp.isEmpty then none
  else some ((natOfDigits ip : ℚ) + (natOfDigits fp : ℚ) / (10 ^ fp.length : ℕ))

/-- The digit characters produced by JS `Number.prototype.toString(16)`. -/
def hexDigitChar (n : ℕ) : Char :=
  if n < 10 then Char.ofNat (48 + n) else Char.ofNat (87 + n)

/-- Hexadecimal representation of a natural number (fuel-based so that the
kernel can evaluate it; the fuel `n+1` always suffices). -/
def natToHexAux : ℕ → ℕ → List Char
  | 0, n => [hexDigitChar n]
  | fuel + 1, n =>
    if n < 16 then [hexDigitChar n]
    else natToHexAux fuel (n / 16) ++ [hexDigitChar (n % 16)]

def natToHex (n : ℕ) : List Char := natToHexAux (n + 1) n

/-- JS `Number.prototype.toString(16)` on integers. -/
def intToHexString (i : ℤ) : List Char :=
  if i < 0 then '-' :: natToHex i.natAbs else natToHex i.toNat

/-- JS `String.prototype.padStart(2, '0')`. -/
def padStart2 (l : List Char) : List Char :=
  if 2 ≤ l.length then l else List.replicate (2 - l.length) '0' ++ l

/-! ## The utility converter (`src/utils/colorConversion.ts`) -/

/-- `RgbColor`: `{r, g, b: number, a?: number}`. -/
structure RgbColor where
  r : ℚ
  g : ℚ
  b : ℚ
  a : Option ℚ
deriving DecidableEq

/-- `HslColor`: `{h, s, l: number, a?: number}`. -/
structure HslColor where
  h : ℚ
  s : ℚ
  l : ℚ
  a : Option ℚ
deriving DecidableEq

/-- JS `hex.replace('#', '')`: a string pattern replaces only the first
occurrence. -/
def replaceFirstHash : List Char → List Char
  | [] => []
  | c :: t => if c == '#' then t else c :: replaceFirstHash t

/-- `parseHex` of `colorConversion.ts`.  A `NaN` channel (some slice holds
no hex digit) is modelled as overall failure; no claim reaches that case. -/
def parseHex (hex : List Char) : Option RgbColor :=
  let cleanHex := replaceFirstHash hex
  if cleanHex.length = 3 then
    let d0 := cleanHex.getD 0 '0'
    let d1 := cleanHex.getD 1 '0'
    let d2 := cleanHex.getD 2 '0'
    match jsParseIntHex [d0, d0], jsParseIntHex [d1, d1], jsParseIntHex [d2, d2] with
    | some r, some g, some b => some ⟨(r : ℚ), (g : ℚ), (b : ℚ), none⟩
    | _, _, _ => none
  else if cleanHex.length = 6 then
    match jsParseIntHex (cleanHex.take 2), jsParseIntHex ((cleanHex.drop 2).take 2),
        jsParseIntHex ((cleanHex.drop 4).take 2) with
    | some r, some g, some b => some ⟨(r : ℚ), (g : ℚ), (b : ℚ), none⟩
    | _, _, _ => none
  else if cleanHex.length = 8 then
    match jsParseIntHex (cleanHex.take 2), jsParseIntHex ((cleanHex.drop 2).take 2),
        jsParseIntHex ((cleanHex.drop 4).take 2), jsParseIntHex ((cleanHex.drop 6).take 2) with
    | some r, some g, some b, some a => some ⟨(r : ℚ), (g : ℚ), (b : ℚ), some ((a : ℚ) / 255)⟩
    | _, _, _, _ => none
  else none

/-- Step of a regex scanner: a literal (already at the wanted case). -/
def eatLit (pat s : List Char) : Option (List Char) :=
  if pat.isPrefixOf s then some (s.drop pat.length) else none

/-- Step of a regex scanner: `\s*` (always succeeds). -/
def eatWs (s : List Char) : List Char := s.dropWhile isJsSpace

/-- Step of a regex scanner: `(\d+)` — returns the captured digits and the
rest.  Greedy matching is exact here because a digit can never begin
whatever follows the group in the patterns below. -/
def eatDigits1 (s : List Char) : Option (List Char × List Char) :=
  let ds := s.takeWhile isDigit
  if ds.isEmpty then none else some (ds, s.drop ds.length)

/-- Step of a regex scanner: `([\d.]+)` — digits and dots, greedy. -/
def eatNumDot1 (s : List Char) : Option (List Char × List Char) :=
  let ds := s.takeWhile (fun c => isDigit c || c == '.')
  if ds.isEmpty then none else some (ds, s.drop ds.length)

/-- The captured groups of
`/rgba?\s*\(\s*(\d+)\s*,\s*(\d+)\s*,\s*(\d+)(?:\s*,\s*([\d.]+))?\s*\)/`. -/
structure FnMatch where
  d1 : List Char
  d2 : List Char
  d3 : List Char
  d4 : Option (List Char)
deriving DecidableEq

/-- Match the `rgba?(...)` pattern above at the start of `s`.  The optional
fourth component: after the third group and `\s*`, a comma forces the
alternative with the fourth group (without it no `)` can follow the comma),
otherwise only the group-free alternative can succeed — so the scanner is
deterministic. -/
def rgbMatchAt (s : List Char) : Option FnMatch :=
  (eatLit ['r', 'g', 'b'] s).bind fun s1 =>
  let s2 : List Char := match s1 with | 'a' :: t => t | _ => s1
  (eatLit ['('] (eatWs s2)).bind fun s4 =>
  (eatDigits1 (eatWs s4)).bind fun (g1, s5) =>
  (eatLit [','] (eatWs s5)).bind fun s6 =>
  (eatDigits1 (eatWs s6)).bind fun (g2, s7) =>
  (eatLit [','] (eatWs s7)).bind fun s8 =>
  (eatDigits1 (eatWs s8)).bind fun (g3, s9) =>
  match eatWs s9 with
  | ',' :: sB =>
    (eatNumDot1 (eatWs sB)).bind fun (g4, sC) =>
    (eatLit [')'] (eatWs sC)).map fun _ => ⟨g1, g2, g3, some g4⟩
  | sA => (eatLit [')'] sA).map fun _ => ⟨g1, g2, g3, none⟩

/-- The groups of
`/hsla?\s*\(\s*(\d+)\s*,\s*(\d+)%\s*,\s*(\d+)%(?:\s*,\s*([\d.]+))?\s*\)/`,
matched at the start of `s`. -/
def hslMatchAt (s : List Char) : Option FnMatch :=
  (eatLit ['h', 's', 'l'] s).bind fun s1 =>
  let s2 : List Char := match s1 with | 'a' :: t => t | _ => s1
  (eatLit ['('] (eatWs s2)).bind fun s4 =>
  (eatDigits1 (eatWs s4)).bind fun (g1, s5) =>
  (eatLit [','] (eatWs s5)).bind fun s6 =>
  (eatDigits1 (eatWs s6)).bind fun (g2, s7) =>
  (eatLit ['%'] s7).bind fun s7a =>
  (eatLit [','] (eatWs s7a)).bind fun s8 =>
  (eatDigits1 (eatWs s8)).bind fun (g3, s9) =>
  (eatLit ['%'] s9).bind fun s9a =>
  match eatWs s9a with
  | ',' :: sB =>
    (eatNumDot1 (eatWs sB)).bind fun (g4, sC) =>
    (eatLit [')'] (eatWs sC)).map fun _ => ⟨g1, g2, g3, some g4⟩
  | sA => (eatLit [')'] sA).map fun _ => ⟨g1, g2, g3, none⟩

/-- JS `String.prototype.match` (no `g` flag): the first position, scanning
left to right, at which the pattern matches. -/
def searchM {α : Type} (matchAtFn : List Char → Option α) : List Char → Option α
  | [] => matchAtFn []
  | c :: t =>
    match matchAtFn (c :: t) with
    | some m => some m
    | none => searchM matchAtFn t

/-- `hslToRgb` of `colorConversion.ts`. -/
def hslToRgb (hsl : HslColor) : RgbColor :=
  let hNorm := hsl.h / 360
  let sNorm := hsl.s / 100
  let lNorm := hsl.l / 100
  let c := (1 - |2 * lNorm - 1|) * sNorm
  let x := c * (1 - |jsMod (hNorm * 6) 2 - 1|)
  let m := lNorm - c / 2
  let rgb : ℚ × ℚ × ℚ :=
    if hNorm < 1/6 then (c, x, 0)
    else if hNorm < 2/6 then (x, c, 0)
    else if hNorm < 3/6 then (0, c, x)
    else if hNorm < 4/6 then (0, x, c)
    else if hNorm < 5/6 then (x, 0, c)
    else (c, 0, x)
  ⟨(jsRound ((rgb.1 + m) * 255) : ℚ), (jsRound ((rgb.2.1 + m) * 255) : ℚ),
    (jsRound ((rgb.2.2 + m) * 255) : ℚ), hsl.a⟩

/-- `parseRgb` of `colorConversion.ts`. -/
def parseRgb (rgb : List Char) : Option RgbColor :=
  match searchM rgbMatchAt rgb with
  | none => none
  | some m =>
    some ⟨(natOfDigits m.d1 : ℚ), (natOfDigits m.d2 : ℚ), (natOfDigits m.d3 : ℚ),
      match m.d4 with
      | some ds => jsParseFloat ds
      | none => none⟩

/-- `parseHsl` of `colorConversion.ts`. -/
def parseHsl (hsl : List Char) : Option RgbColor :=
  match searchM hslMatchAt hsl with
  | none => none
  | some m =>
    some (hslToRgb ⟨(natOfDigits m.d1 : ℚ), (natOfDigits m.d2 : ℚ), (natOfDigits m.d3 : ℚ),
      match m.d4 with
      | some ds => jsParseFloat ds
      | none => none⟩)

/-- `parseColor` of `colorConversion.ts`, over `List Char`. -/
def parseColorL (l : List Char) : Option RgbColor :=
  let trimmed := trimL l
  if startsWithL ['#'] trimmed then parseHex trimmed
  else if startsWithL ['r', 'g', 'b'] trimmed then parseRgb trimmed
  else if startsWithL ['h', 's', 'l'] trimmed then parseHsl trimmed
  else none

/-- `parseColor` of `colorConversion.ts`. -/
def parseColor (colorValue : String) : Option RgbColor := parseColorL colorValue.data

/-- The `toHex` helper of `rgbToHex`:
`Math.round(n).toString(16).padStart(2, '0')`. -/
def toHexChannel (n : ℚ) : List Char := padStart2 (intToHexString (jsRound n))

/-- `rgbToHex` of `colorConversion.ts`, over `List Char`. -/
def rgbToHexL (rgb : RgbColor) : List Char :=
  let hex := '#' :: (toHexChannel rgb.r ++ toHexChannel rgb.g ++ toHexChannel rgb.b)
  match rgb.a with
  | some a =>
    if a < 1 then hex ++ padStart2 (intToHexString (jsRound (a * 255))) else hex
  | none => hex

/-- `rgbToHex` of `colorConversion.ts`. -/
def rgbToHex (rgb : RgbColor) : String := ⟨rgbToHexL rgb⟩

/-- `rgbToHsl` of `colorConversion.ts`.  The `switch (max)` statement is
rendered as an equality chain tried in source order; its (unreachable)
fall-through leaves `h = 0`. -/
def rgbToHsl (rgb : RgbColor) : HslColor :=
  let rNorm := rgb.r / 255
  let gNorm := rgb.g / 255
  let bNorm := rgb.b / 255
  let mx := max rNorm (max gNorm bNorm)
  let mn := min rNorm (min gNorm bNorm)
  let diff := mx - mn
  let l := (mx + mn) / 2
  let s := if diff ≠ 0 then (if l > 1/2 then diff / (2 - mx - mn) else diff / (mx + mn)) else 0
  let h :=
    if diff ≠ 0 then
      if mx = rNorm then ((gNorm - bNorm) / diff + (if gNorm < bNorm then 6 else 0)) / 6
      else if mx = gNorm then ((bNorm - rNorm) / diff + 2) / 6
      else if mx = bNorm then ((rNorm - gNorm) / diff + 4) / 6
      else 0
    else 0
  ⟨(jsRound (h * 360) : ℚ), (jsRound (s * 100) : ℚ), (jsRound (l * 100) : ℚ), rgb.a⟩

/-- The `ColorFormat` enum of the repository's `types.ts`. -/
inductive ColorFormat
  | hex
  | rgb
  | rgba
  | hsl
  | hsla
  | named
  | unknown
deriving DecidableEq

/-- `detectColorFormat` of `colorConversion.ts`. -/
def detectColorFormatL (l : List Char) : ColorFormat :=
  let trimmed := trimL l
  if startsWithL ['#'] trimmed then .hex
  else if startsWithL ['r', 'g', 'b', '('] trimmed then .rgb
  else if startsWithL ['r', 'g', 'b', 'a', '('] trimmed then .rgba
  else if startsWithL ['h', 's', 'l', '('] trimmed then .hsl
  else if startsWithL ['h', 's', 'l', 'a', '('] trimmed then .hsla
  else .unknown

def detectColorFormat (colorValue : String) : ColorFormat := detectColorFormatL colorValue.data

/-! ## Shared `Color` data model (`src/types.ts`) -/

/-- A `position` record `{line, column}`. -/
structure Pos where
  line : ℕ
  column : ℕ
deriving DecidableEq

/-- The `Color` record of `types.ts`:
`{value, format, position?, context?}`. -/
structure Color where
  value : String
  format : ColorFormat
  position : Option Pos
  context : Option String
deriving DecidableEq

/-! ## Decimal rendering of JS numbers

`rgbToRgbString` and friends interpolate numbers into template strings.
JS prints the shortest decimal that round-trips the float; every number a
claim can observe here has a terminating decimal expansion, for which that
output is the exact expansion (computed below).  The non-terminating
fallback arm is unreachable from every claim. -/

def natToDecAux : ℕ → ℕ → List Char
  | 0, n => [Char.ofNat (48 + n)]
  | fuel + 1, n =>
    if n < 10 then [Char.ofNat (48 + n)]
    else natToDecAux fuel (n / 10) ++ [Char.ofNat (48 + n % 10)]

def natToDec (n : ℕ) : List Char := natToDecAux (n + 1) n

/-- Smallest `k ≤ 64` with `den ∣ 10^k`, if any. -/
def findPow10 (den : ℕ) : Option ℕ :=
  (List.range 65).find? (fun k => 10 ^ k % den = 0)

/-- JS number-to-string for the values reachable here.  Because `ℚ` values
are kept normalized, the minimal `k` guarantees the final fraction digit is
nonzero, so no trailing-zero stripping is needed. -/
def jsNumToString (q : ℚ) : List Char :=
  let sgn : List Char := if q < 0 then ['-'] else []
  let aq := |q|
  match findPow10 aq.den with
  | some k =>
    if k = 0 then sgn ++ natToDec aq.num.toNat
    else
      let scaled := (aq * (10 : ℚ) ^ k).num.toNat
      let digits := natToDec scaled
      let digits2 :=
        if digits.length ≤ k then List.replicate (k + 1 - digits.length) '0' ++ digits
        else digits
      sgn ++ digits2.take (digits2.length - k) ++ '.' :: digits2.drop (digits2.length - k)
  | none => sgn ++ natToDec aq.num.toNat ++ '/' :: natToDec aq.den

/-! ## The converter (`src/conversion/colorConverter.ts`) -/

namespace Converter

/-- The `targetFormat` union of `ColorConversionOptions`. -/
inductive TargetFormat
  | hex
  | rgb
  | rgba
  | hsl
  | hsla
  | oklch
deriving DecidableEq

/-- `ColorConversionOptions` (the four flags are `boolean | undefined`). -/
structure ColorConversionOptions where
  targetFormat : TargetFormat
  preserveAlpha : Option Bool
  roundValues : Option Bool
  uppercase : Option Bool
  shortHex : Option Bool
deriving DecidableEq

/-- JS truthiness of a `boolean | undefined` value. -/
def truthy (o : Option Bool) : Bool := o == some true

/-- `ColorSpace`: the converter's canonical RGB record. -/
structure ColorSpace where
  r : ℚ
  g : ℚ
  b : ℚ
  a : Option ℚ
deriving DecidableEq

/-- `HSLSpace`. -/
structure HSLSpace where
  h : ℚ
  s : ℚ
  l : ℚ
  a : Option ℚ
deriving DecidableEq

/-- `ColorConversionResult`.  The `timestamp` field is `Date.now()` at
invocation; the clock reading is passed in explicitly as `now` below. -/
structure ColorConversionResult where
  original : Color
  converted : String
  format : TargetFormat
  timestamp : ℤ
  success : Bool
  error : Option String
deriving DecidableEq

/-- `parseHexToRGB`: 3-digit input doubles each nibble; then 6- or 8-digit
parse, anything else `null`. -/
def parseHexToRGB (hex : List Char) : Option ColorSpace :=
  let hex2 := if hex.length = 3 then hex.flatMap (fun c => [c, c]) else hex
  if hex2.length = 6 then
    match jsParseIntHex (hex2.take 2), jsParseIntHex ((hex2.drop 2).take 2),
        jsParseIntHex ((hex2.drop 4).take 2) with
    | some r, some g, some b => some ⟨(r : ℚ), (g : ℚ), (b : ℚ), none⟩
    | _, _, _ => none
  else if hex2.length = 8 then
    match jsParseIntHex (hex2.take 2), jsParseIntHex ((hex2.drop 2).take 2),
        jsParseIntHex ((hex2.drop 4).take 2), jsParseIntHex ((hex2.drop 6).take 2) with
    | some r, some g, some b, some a => some ⟨(r : ℚ), (g : ℚ), (b : ℚ), some ((a : ℚ) / 255)⟩
    | _, _, _, _ => none
  else none

/-- Anchored matcher for `/^rgb\(\s*(\d+)\s*,\s*(\d+)\s*,\s*(\d+)\s*\)$/`. -/
def rgbAnchor (s : List Char) : Option (List Char × List Char × List Char) :=
  (eatLit ['r', 'g', 'b', '('] s).bind fun s1 =>
  (eatDigits1 (eatWs s1)).bind fun (g1, s2) =>
  (eatLit [','] (eatWs s2)).bind fun s3 =>
  (eatDigits1 (eatWs s3)).bind fun (g2, s4) =>
  (eatLit [','] (eatWs s4)).bind fun s5 =>
  (eatDigits1 (eatWs s5)).bind fun (g3, s6) =>
  (eatLit [')'] (eatWs s6)).bind fun s7 =>
  if s7.isEmpty then some (g1, g2, g3) else none

/-- Anchored matcher for
`/^rgba\(\s*(\d+)\s*,\s*(\d+)\s*,\s*(\d+)\s*,\s*([\d.]+)\s*\)$/`. -/
def rgbaAnchor (s : List Char) : Option (List Char × List Char × List Char × List Char) :=
  (eatLit ['r', 'g', 'b', 'a', '('] s).bind fun s1 =>
  (eatDigits1 (eatWs s1)).bind fun (g1, s2) =>
  (eatLit [','] (eatWs s2)).bind fun s3 =>
  (eatDigits1 (eatWs s3)).bind fun (g2, s4) =>
  (eatLit [','] (eatWs s4)).bind fun s5 =>
  (eatDigits1 (eatWs s5)).bind fun (g3, s6) =>
  (eatLit [','] (eatWs s6)).bind fun s7 =>
  (eatNumDot1 (eatWs s7)).bind fun (g4, s8) =>
  (eatLit [')'] (eatWs s8)).bind fun s9 =>
  if s9.isEmpty then some (g1, g2, g3, g4) else none

/-- Anchored matcher for `/^hsl\(\s*(\d+)\s*,\s*(\d+)%\s*,\s*(\d+)%\s*\)$/`. -/
def hslAnchor (s : List Char) : Option (List Char × List Char × List Char) :=
  (eatLit ['h', 's', 'l', '('] s).bind fun s1 =>
  (eatDigits1 (eatWs s1)).bind fun (g1, s2) =>
  (eatLit [','] (eatWs s2)).bind fun s3 =>
  (eatDigits1 (eatWs s3)).bind fun (g2, s4) =>
  (eatLit ['%'] s4).bind fun s4a =>
  (eatLit [','] (eatWs s4a)).bind fun s5 =>
  (eatDigits1 (eatWs s5)).bind fun (g3, s6) =>
  (eatLit ['%'] s6).bind fun s6a =>
  (eatLit [')'] (eatWs s6a)).bind fun s7 =>
  if s7.isEmpty then some (g1, g2, g3) else none

/-- Anchored matcher for
`/^hsla\(\s*(\d+)\s*,\s*(\d+)%\s*,\s*(\d+)%\s*,\s*([\d.]+)\s*\)$/`. -/
def hslaAnchor (s : List Char) : Option (List Char × List Char × List Char × List Char) :=
  (eatLit ['h', 's', 'l', 'a', '('] s).bind fun s1 =>
  (eatDigits1 (eatWs s1)).bind fun (g1, s2) =>
  (eatLit [','] (eatWs s2)).bind fun s3 =>
  (eatDigits1 (eatWs s3)).bind fun (g2, s4) =>
  (eatLit ['%'] s4).bind fun s4a =>
  (eatLit [','] (eatWs s4a)).bind fun s5 =>
  (eatDigits1 (eatWs s5)).bind fun (g3, s6) =>
  (eatLit ['%'] s6).bind fun s6a =>
  (eatLit [','] (eatWs s6a)).bind fun s7 =>
  (eatNumDot1 (eatWs s7)).bind fun (g4, s8) =>
  (eatLit [')'] (eatWs s8)).bind fun s9 =>
  if s9.isEmpty then some (g1, g2, g3, g4) else none

/-- The `hue2rgb` closure of the converter's `hslToRgb`. -/
def hue2rgb (p q t : ℚ) : ℚ :=
  let t1 := if t < 0 then t + 1 else t
  let t2 := if t1 > 1 then t1 - 1 else t1
  if t2 < 1/6 then p + (q - p) * 6 * t2
  else if t2 < 1/2 then q
  else if t2 < 2/3 then p + (q - p) * (2/3 - t2) * 6
  else p

/-- `hslToRgb` of the converter.  Its TS signature is nullable but no path
returns `null`, so it is modelled as a total function. -/
def hslToRgb (h s l : ℚ) : ColorSpace :=
  let hn := h / 360
  let sn := s / 100
  let ln := l / 100
  if sn = 0 then
    let value := (jsRound (ln * 255) : ℚ)
    ⟨value, value, value, none⟩
  else
    let q := if ln < 1/2 then ln * (1 + sn) else ln + sn - ln * sn
    let p := 2 * ln - q
    ⟨(jsRound (hue2rgb p q (hn + 1/3) * 255) : ℚ), (jsRound (hue2rgb p q hn * 255) : ℚ),
      (jsRound (hue2rgb p q (hn - 1/3) * 255) : ℚ), none⟩

/-- The `namedColors` table of `getNamedColorRGB`. -/
def namedColors : List (List Char × ColorSpace) :=
  [(['b','l','a','c','k'], ⟨0, 0, 0, none⟩),
   (['w','h','i','t','e'], ⟨255, 255, 255, none⟩),
   (['r','e','d'], ⟨255, 0, 0, none⟩),
   (['g','r','e','e','n'], ⟨0, 128, 0, none⟩),
   (['b','l','u','e'], ⟨0, 0, 255, none⟩),
   (['y','e','l','l','o','w'], ⟨255, 255, 0, none⟩),
   (['c','y','a','n'], ⟨0, 255, 255, none⟩),
   (['m','a','g','e','n','t','a'], ⟨255, 0, 255, none⟩),
   (['s','i','l','v','e','r'], ⟨192, 192, 192, none⟩),
   (['g','r','a','y'], ⟨128, 128, 128, none⟩),
   (['m','a','r','o','o','n'], ⟨128, 0, 0, none⟩),
   (['o','l','i','v','e'], ⟨128, 128, 0, none⟩),
   (['l','i','m','e'], ⟨0, 255, 0, none⟩),
   (['a','q','u','a'], ⟨0, 255, 255, none⟩),
   (['t','e','a','l'], ⟨0, 128, 128, none⟩),
   (['n','a','v','y'], ⟨0, 0, 128, none⟩),
   (['f','u','c','h','s','i','a'], ⟨255, 0, 255, none⟩),
   (['p','u','r','p','l','e'], ⟨128, 0, 128, none⟩),
   (['t','r','a','n','s','p','a','r','e','n','t'], ⟨0, 0, 0, some 0⟩)]

/-- `getNamedColorRGB`. -/
def getNamedColorRGB (colorName : List Char) : Option ColorSpace :=
  (namedColors.find? (fun p => p.1 == lowerL colorName)).map (fun p => p.2)

/-- The non-hex arms of `parseColorToRGB`, tried in source order.  A `NaN`
alpha from `parseFloat` (only possible for an all-dots group) is modelled as
an absent alpha; no claim reaches that case. -/
def parseColorToRGBRest (color : List Char) : Option ColorSpace :=
  match rgbAnchor color with
  | some (g1, g2, g3) =>
    some ⟨(natOfDigits g1 : ℚ), (natOfDigits g2 : ℚ), (natOfDigits g3 : ℚ), none⟩
  | none =>
  match rgbaAnchor color with
  | some (g1, g2, g3, g4) =>
    some ⟨(natOfDigits g1 : ℚ), (natOfDigits g2 : ℚ), (natOfDigits g3 : ℚ), jsParseFloat g4⟩
  | none =>
  match hslAnchor color with
  | some (g1, g2, g3) =>
    some (hslToRgb (natOfDigits g1 : ℚ) (natOfDigits g2 : ℚ) (natOfDigits g3 : ℚ))
  | none =>
  match hslaAnchor color with
  | some (g1, g2, g3, g4) =>
    let rgb := hslToRgb (natOfDigits g1 : ℚ) (natOfDigits g2 : ℚ) (natOfDigits g3 : ℚ)
    some { rgb with a := jsParseFloat g4 }
  | none => getNamedColorRGB color

/-- `parseColorToRGB`, over `List Char`.  If the `/^#([0-9a-f]{3,8})$/i`
test succeeds, the result is `parseHexToRGB` of the group — even when that
is `null` (so a 4/5/7-digit hex does not fall through to later patterns). -/
def parseColorToRGBL (l : List Char) : Option ColorSpace :=
  let color := lowerL (trimL l)
  match color with
  | '#' :: rest =>
    if 3 ≤ rest.length ∧ rest.length ≤ 8 ∧ rest.all isHexDigit then parseHexToRGB rest
    else parseColorToRGBRest color
  | _ => parseColorToRGBRest color

/-- `parseColorToRGB`. -/
def parseColorToRGB (colorString : String) : Option ColorSpace :=
  parseColorToRGBL colorString.data

/-- The `toHex` closure of the converter's `rgbToHex`:
`Math.round(Math.max(0, Math.min(255, value))).toString(16)`, left-padded
to two digits. -/
def toHexClamped (value : ℚ) : List Char :=
  let hx := intToHexString (jsRound (max 0 (min 255 value)))
  if hx.length = 1 then '0' :: hx else hx

/-- `rgbToHex` of the converter, over `List Char`.  Note: the alpha suffix
is appended whenever `rgb.a` is defined and `options.preserveAlpha` is
truthy — with no `a < 1` test. -/
def rgbToHexL (rgb : ColorSpace) (options : ColorConversionOptions) : List Char :=
  let hex := '#' :: (toHexClamped rgb.r ++ toHexClamped rgb.g ++ toHexClamped rgb.b)
  let hex1 :=
    match rgb.a with
    | some a => if truthy options.preserveAlpha then hex ++ toHexClamped (a * 255) else hex
    | none => hex
  let hex2 :=
    if truthy options.shortHex ∧ hex1.length = 7 then
      let r := (hex1.drop 1).take 2
      let g := (hex1.drop 3).take 2
      let b := (hex1.drop 5).take 2
      if r.getD 0 ' ' = r.getD 1 ' ' ∧ g.getD 0 ' ' = g.getD 1 ' ' ∧ b.getD 0 ' ' = b.getD 1 ' ' then
        ['#', r.getD 0 ' ', g.getD 0 ' ', b.getD 0 ' ']
      else hex1
    else hex1
  if truthy options.uppercase then hex2.map Char.toUpper else hex2

/-- `rgbToHex` of the converter. -/
def rgbToHex (rgb : ColorSpace) (options : ColorConversionOptions) : String :=
  ⟨rgbToHexL rgb options⟩

/-- `rgbToHsl` of the converter (`h /= 6` applied after the `switch`). -/
def rgbToHsl (rgb : ColorSpace) : HSLSpace :=
  let r := rgb.r / 255
  let g := rgb.g / 255
  let b := rgb.b / 255
  let mx := max r (max g b)
  let mn := min r (min g b)
  let diff := mx - mn
  let l := (mx + mn) / 2
  let s := if diff ≠ 0 then (if l > 1/2 then diff / (2 - mx - mn) else diff / (mx + mn)) else 0
  let h :=
    if diff ≠ 0 then
      (if mx = r then (g - b) / diff + (if g < b then 6 else 0)
       else if mx = g then (b - r) / diff + 2
       else if mx = b then (r - g) / diff + 4
       else 0) / 6
    else 0
  ⟨(jsRound (h * 360) : ℚ), (jsRound (s * 100) : ℚ), (jsRound (l * 100) : ℚ), rgb.a⟩

/-- `rgbToRgbString` of the converter. -/
def rgbToRgbString (rgb : ColorSpace) (options : ColorConversionOptions) : List Char :=
  let r := if truthy options.roundValues then (jsRound rgb.r : ℚ) else rgb.r
  let g := if truthy options.roundValues then (jsRound rgb.g : ℚ) else rgb.g
  let b := if truthy options.roundValues then (jsRound rgb.b : ℚ) else rgb.b
  ['r', 'g', 'b', '('] ++ jsNumToString r ++ [',', ' '] ++ jsNumToString g ++ [',', ' '] ++
    jsNumToString b ++ [')']

/-- `rgbToRgbaString` of the converter. -/
def rgbToRgbaString (rgb : ColorSpace) (options : ColorConversionOptions) : List Char :=
  let r := if truthy options.roundValues then (jsRound rgb.r : ℚ) else rgb.r
  let g := if truthy options.roundValues then (jsRound rgb.g : ℚ) else rgb.g
  let b := if truthy options.roundValues then (jsRound rgb.b : ℚ) else rgb.b
  let a := match rgb.a with | some a => a | none => 1
  ['r', 'g', 'b', 'a', '('] ++ jsNumToString r ++ [',', ' '] ++ jsNumToString g ++ [',', ' '] ++
    jsNumToString b ++ [',', ' '] ++ jsNumToString a ++ [')']

/-- `rgbToHslString` of the converter. -/
def rgbToHslString (rgb : ColorSpace) (options : ColorConversionOptions) : List Char :=
  let hsl := rgbToHsl rgb
  let h := if truthy options.roundValues then (jsRound hsl.h : ℚ) else hsl.h
  let s := if truthy options.roundValues then (jsRound hsl.s : ℚ) else hsl.s
  let l := if truthy options.roundValues then (jsRound hsl.l : ℚ) else hsl.l
  ['h', 's', 'l', '('] ++ jsNumToString h ++ [',', ' '] ++ jsNumToString s ++ ['%', ',', ' '] ++
    jsNumToString l ++ ['%', ')']

/-- `rgbToHslaString` of the converter. -/
def rgbToHslaString (rgb : ColorSpace) (options : ColorConversionOptions) : List Char :=
  let hsl := rgbToHsl rgb
  let h := if truthy options.roundValues then (jsRound hsl.h : ℚ) else hsl.h
  let s := if truthy options.roundValues then (jsRound hsl.s : ℚ) else hsl.s
  let l := if truthy options.roundValues then (jsRound hsl.l : ℚ) else hsl.l
  let a := match rgb.a with | some a => a | none => 1
  ['h', 's', 'l', 'a', '('] ++ jsNumToString h ++ [',', ' '] ++ jsNumToString s ++ ['%', ',', ' '] ++
    jsNumToString l ++ ['%', ',', ' '] ++ jsNumToString a ++ [')']

/-- `rgbToOklchString` of the converter (the documented approximate
mapping). -/
def rgbToOklchString (rgb : ColorSpace) (options : ColorConversionOptions) : List Char :=
  let hsl := rgbToHsl rgb
  let l := hsl.l / 100
  let c := hsl.s / 100 * (4/10)
  let h := hsl.h
  let lVal := if truthy options.roundValues then ((jsRound (l * 100) : ℚ) / 100) else l
  let cVal := if truthy options.roundValues then ((jsRound (c * 100) : ℚ) / 100) else c
  let hVal := if truthy options.roundValues then ((jsRound h : ℤ) : ℚ) else h
  ['o', 'k', 'l', 'c', 'h', '('] ++ jsNumToString lVal ++ [' '] ++ jsNumToString cVal ++ [' '] ++
    jsNumToString hVal ++ [')']

/-- `convertColor`.  `now` is the `Date.now()` reading at invocation.  The
`try`/`catch` of the source can only be entered through the `switch`
default arm, which the closed `targetFormat` union makes unreachable, so no
catch path appears here. -/
def convertColor (color : Color) (options : ColorConversionOptions) (now : ℤ) :
    ColorConversionResult :=
  match parseColorToRGB color.value with
  | none =>
    ⟨color, color.value, options.targetFormat, now, false,
      some ("Unable to parse color: " ++ color.value)⟩
  | some rgb =>
    let converted : String :=
      match options.targetFormat with
      | .hex => rgbToHex rgb options
      | .rgb => ⟨rgbToRgbString rgb options⟩
      | .rgba => ⟨rgbToRgbaString rgb options⟩
      | .hsl => ⟨rgbToHslString rgb options⟩
      | .hsla => ⟨rgbToHslaString rgb options⟩
      | .oklch => ⟨rgbToOklchString rgb options⟩
    ⟨color, converted, options.targetFormat, now, true, none⟩

end Converter

/-! ## The CSS extractor (`src/extraction/formats/css.ts`) -/

namespace Css

/-- `HEX_PATTERN = /#([0-9a-fA-F]{3}|[0-9a-fA-F]{6}|[0-9a-fA-F]{8})\b/g`
matched at the start of the suffix `t`; returns the match length.
The alternatives are tried in source order (3, then 6, then 8 digits); a
`\b` after `k` hex digits holds exactly when no word character follows
them. -/
def hexTokenAt (t : List Char) : Option ℕ :=
  match t with
  | '#' :: rest =>
    let wordAfter : ℕ → Bool := fun k =>
      match rest.drop k with
      | [] => false
      | c :: _ => isWordChar c
    if 3 ≤ (rest.takeWhile isHexDigit).length ∧ wordAfter 3 = false then some 4
    else if 6 ≤ (rest.takeWhile isHexDigit).length ∧ wordAfter 6 = false then some 7
    else if 8 ≤ (rest.takeWhile isHexDigit).length ∧ wordAfter 8 = false then some 9
    else none
  | _ => none

/-- `RGB_PATTERN = /rgb\s*\(\s*(\d+)\s*,\s*(\d+)\s*,\s*(\d+)\s*\)/g` at the
start of `t`; returns the match length. -/
def rgbTokenAt (t : List Char) : Option ℕ :=
  (eatLit ['r', 'g', 'b'] t).bind fun s1 =>
  (eatLit ['('] (eatWs s1)).bind fun s2 =>
  (eatDigits1 (eatWs s2)).bind fun (_, s3) =>
  (eatLit [','] (eatWs s3)).bind fun s4 =>
  (eatDigits1 (eatWs s4)).bind fun (_, s5) =>
  (eatLit [','] (eatWs s5)).bind fun s6 =>
  (eatDigits1 (eatWs s6)).bind fun (_, s7) =>
  (eatLit [')'] (eatWs s7)).map fun s8 => t.length - s8.length

/-- `RGBA_PATTERN = /rgba\s*\(\s*(\d+)\s*,\s*(\d+)\s*,\s*(\d+)\s*,\s*([\d.]+)\s*\)/g`. -/
def rgbaTokenAt (t : List Char) : Option ℕ :=
  (eatLit ['r', 'g', 'b', 'a'] t).bind fun s1 =>
  (eatLit ['('] (eatWs s1)).bind fun s2 =>
  (eatDigits1 (eatWs s2)).bind fun (_, s3) =>
  (eatLit [','] (eatWs s3)).bind fun s4 =>
  (eatDigits1 (eatWs s4)).bind fun (_, s5) =>
  (eatLit [','] (eatWs s5)).bind fun s6 =>
  (eatDigits1 (eatWs s6)).bind fun (_, s7) =>
  (eatLit [','] (eatWs s7)).bind fun s8 =>
  (eatNumDot1 (eatWs s8)).bind fun (_, s9) =>
  (eatLit [')'] (eatWs s9)).map fun s10 => t.length - s10.length

/-- `HSL_PATTERN = /hsl\s*\(\s*(\d+)\s*,\s*(\d+)%\s*,\s*(\d+)%\s*\)/g`. -/
def hslTokenAt (t : List Char) : Option ℕ :=
  (eatLit ['h', 's', 'l'] t).bind fun s1 =>
  (eatLit ['('] (eatWs s1)).bind fun s2 =>
  (eatDigits1 (eatWs s2)).bind fun (_, s3) =>
  (eatLit [','] (eatWs s3)).bind fun s4 =>
  (eatDigits1 (eatWs s4)).bind fun (_, s5) =>
  (eatLit ['%'] s5).bind fun s5a =>
  (eatLit [','] (eatWs s5a)).bind fun s6 =>
  (eatDigits1 (eatWs s6)).bind fun (_, s7) =>
  (eatLit ['%'] s7).bind fun s7a =>
  (eatLit [')'] (eatWs s7a)).map fun s8 => t.length - s8.length

/-- `HSLA_PATTERN = /hsla\s*\(\s*(\d+)\s*,\s*(\d+)%\s*,\s*(\d+)%\s*,\s*([\d.]+)\s*\)/g`. -/
def hslaTokenAt (t : List Char) : Option ℕ :=
  (eatLit ['h', 's', 'l', 'a'] t).bind fun s1 =>
  (eatLit ['('] (eatWs s1)).bind fun s2 =>
  (eatDigits1 (eatWs s2)).bind fun (_, s3) =>
  (eatLit [','] (eatWs s3)).bind fun s4 =>
  (eatDigits1 (eatWs s4)).bind fun (_, s5) =>
  (eatLit ['%'] s5).bind fun s5a =>
  (eatLit [','] (eatWs s5a)).bind fun s6 =>
  (eatDigits1 (eatWs s6)).bind fun (_, s7) =>
  (eatLit ['%'] s7).bind fun s7a =>
  (eatLit [','] (eatWs s7a)).bind fun s8 =>
  (eatNumDot1 (eatWs s8)).bind fun (_, s9) =>
  (eatLit [')'] (eatWs s9)).map fun s10 => t.length - s10.length

end Css

/-- The `while ((match = PATTERN.exec(line)) !== null)` loop of a `g`-flag
regex: scan left to right, resuming after each match (every pattern here
matches at least one character; the `len = 0` arm is defensive only).
Returns `(index, length)` pairs.  Fuel-based; `s.length + 1` suffices. -/
def execAllAux (matchAt : List Char → Option ℕ) : ℕ → List Char → ℕ → List (ℕ × ℕ)
  | 0, _, _ => []
  | _ + 1, [], _ => []
  | fuel + 1, c :: rest, i =>
    match matchAt (c :: rest) with
    | some len =>
      if len = 0 then execAllAux matchAt fuel rest (i + 1)
      else (i, len) :: execAllAux matchAt fuel ((c :: rest).drop len) (i + len)
    | none => execAllAux matchAt fuel rest (i + 1)

def execAll (matchAt : List Char → Option ℕ) (s : List Char) : List (ℕ × ℕ) :=
  execAllAux matchAt (s.length + 1) s 0

namespace Css

/-- `isInComment` of `extractFromCss`: the last `/*` before the index is
more recent than the last `*/`. -/
def isInComment (line : List Char) (index : ℕ) : Bool :=
  let before := line.take index
  lastIndexOfSub ['/', '*'] before > lastIndexOfSub ['*', '/'] before

/-- The `addColor` helper of `extractFromCss`, applied to one regex match. -/
def addColor (lineIndex : ℕ) (line : List Char) (m : ℕ × ℕ) : List Color :=
  if isInComment line m.1 then []
  else
    [⟨⟨(line.drop m.1).take m.2⟩, detectColorFormatL ((line.drop m.1).take m.2),
      some ⟨lineIndex + 1, m.1 + 1⟩, some ⟨trimL line⟩⟩]

/-- One line of `extractFromCss`: the five pattern loops in source order. -/
def lineColors (lineIndex : ℕ) (line : List Char) : List Color :=
  (execAll hexTokenAt line ++ execAll rgbTokenAt line ++ execAll rgbaTokenAt line ++
    execAll hslTokenAt line ++ execAll hslaTokenAt line).flatMap (addColor lineIndex line)

def extractAux : ℕ → List (List Char) → List Color
  | _, [] => []
  | n, line :: rest => lineColors n line ++ extractAux (n + 1) rest

/-- `extractFromCss`. -/
def extractFromCss (content : String) : List Color :=
  extractAux 0 (splitOnNl content.data)

end Css

/-! ## The JavaScript/TypeScript extractor
(`src/extraction/formats/javascript.ts`) -/

/-- The backquote, left-brace and right-brace characters (written by code
point). -/
def backquote : Char := Char.ofNat 96

def lbraceChar : Char := Char.ofNat 123

def rbraceChar : Char := Char.ofNat 125

namespace Js

/-- The quote class `['"`]` of `STRING_COLOR_PATTERN`. -/
def isQuote (c : Char) : Bool := c == '\'' || c == '"' || c == backquote

/-- `STRING_COLOR_PATTERN = /['"`]([^'"`]*?)['"`]/g` at the start of `t`;
returns the match length.  The lazy inner group stops at the first
quote-class character, which also closes the match. -/
def stringTokenAt (t : List Char) : Option ℕ :=
  match t with
  | c :: rest =>
    if isQuote c then
      let inner := rest.takeWhile (fun d => !isQuote d)
      match rest.drop inner.length with
      | d :: _ => if isQuote d then some (inner.length + 2) else none
      | [] => none
    else none
  | [] => none

/-- A test of an unanchored pattern: does its start-anchored matcher
succeed at some position of `s`?  (JS `RegExp.prototype.test`.) -/
def regexTest (matchAt : List Char → Bool) (s : List Char) : Bool :=
  (List.range (s.length + 1)).any (fun i => matchAt (s.drop i))

/-- The `styleKeywords` list of `isStyleContext`. -/
def styleKeywords : List (List Char) :=
  [['c','o','l','o','r',':'],
   ['b','a','c','k','g','r','o','u','n','d',':'],
   ['b','o','r','d','e','r',':'],
   ['b','o','x','-','s','h','a','d','o','w',':'],
   ['t','e','x','t','-','s','h','a','d','o','w',':'],
   ['f','i','l','l',':'],
   ['s','t','r','o','k','e',':'],
   ['t','h','e','m','e',':'],
   ['p','a','l','e','t','t','e',':'],
   ['s','t','y','l','e',':'],
   ['s','t','y','l','e','s',':'],
   ['c','o','l','o','r','s',':'],
   ['b','a','c','k','g','r','o','u','n','d','C','o','l','o','r',':'],
   ['b','o','r','d','e','r','C','o','l','o','r',':'],
   ['t','e','x','t','C','o','l','o','r',':'],
   ['f','i','l','l','C','o','l','o','r',':'],
   ['s','t','r','o','k','e','C','o','l','o','r',':'],
   ['c','o','l','o','r','S','c','h','e','m','e',':'],
   ['c','s','s',':'],
   ['s','t','y','l','e','d'],
   ['t','h','e','m','e']]

/-- `styleKeywords.some(kw => line.toLowerCase().includes(kw.toLowerCase()))`. -/
def hasStyleKeyword (line : List Char) : Bool :=
  styleKeywords.any (fun kw => containsSub (lowerL kw) (lowerL line))

/-- The `cssInJsPatterns` test: each pattern is a fixed substring (the only
escaped metacharacters are literal dots). -/
def hasCssInJs (line : List Char) : Bool :=
  containsSub ['c','s','s', backquote] line ||
  containsSub ['s','t','y','l','e','d','.'] line ||
  containsSub ['c','r','e','a','t','e','S','t','y','l','e','s'] line ||
  containsSub ['m','a','k','e','S','t','y','l','e','s'] line ||
  containsSub ['u','s','e','S','t','y','l','e','s'] line ||
  containsSub ['e','m','o','t','i','o','n'] line ||
  containsSub ['s','t','y','l','e','d','-','c','o','m','p','o','n','e','n','t','s'] line ||
  containsSub ['t','h','e','m','e','.'] line ||
  containsSub ['c','o','l','o','r','s','.'] line

/-- `objectPattern = /{[^}]*$/` on the text before the match: some `{` is
not followed by any `}`. -/
def objectPatternTest (before : List Char) : Bool :=
  lastIndexOfSub [lbraceChar] before > lastIndexOfSub [rbraceChar] before

/-- Start-anchored matcher for
`stylePropertyPattern = /(color|background|border|fill|stroke|theme|palette|style|colors)\s*:/`. -/
def stylePropAt (t : List Char) : Bool :=
  [['c','o','l','o','r'], ['b','a','c','k','g','r','o','u','n','d'],
   ['b','o','r','d','e','r'], ['f','i','l','l'], ['s','t','r','o','k','e'],
   ['t','h','e','m','e'], ['p','a','l','e','t','t','e'], ['s','t','y','l','e'],
   ['c','o','l','o','r','s']].any fun kw =>
    kw.isPrefixOf t &&
      (match eatWs (t.drop kw.length) with
       | ':' :: _ => true
       | _ => false)

def stylePropertyTest (line : List Char) : Bool := regexTest stylePropAt line

/-- Start-anchored matcher for
`styleVarPattern = /(const|let|var)\s+(color|style|theme|palette|css)\w*\s*=/`.
Greedy `\w*` and `\s*` are exact here because their follower sets are
disjoint from their own character classes. -/
def styleVarAt (t : List Char) : Bool :=
  [['c','o','n','s','t'], ['l','e','t'], ['v','a','r']].any fun kw1 =>
    kw1.isPrefixOf t &&
      (let s1 := t.drop kw1.length
       let ws := s1.takeWhile isJsSpace
       !ws.isEmpty &&
         ([['c','o','l','o','r'], ['s','t','y','l','e'], ['t','h','e','m','e'],
           ['p','a','l','e','t','t','e'], ['c','s','s']].any fun kw2 =>
           let s2 := s1.drop ws.length
           kw2.isPrefixOf s2 &&
             (match eatWs ((s2.drop kw2.length).dropWhile isWordChar) with
              | '=' :: _ => true
              | _ => false)))

def styleVarTest (line : List Char) : Bool := regexTest styleVarAt line

/-- Start-anchored matcher for
`themeContextPattern = /(theme|colors|palette|style)\s*[.:]/`. -/
def themeContextAt (t : List Char) : Bool :=
  [['t','h','e','m','e'], ['c','o','l','o','r','s'], ['p','a','l','e','t','t','e'],
   ['s','t','y','l','e']].any fun kw =>
    kw.isPrefixOf t &&
      (match eatWs (t.drop kw.length) with
       | c :: _ => c == '.' || c == ':'
       | [] => false)

def themeContextTest (line : List Char) : Bool := regexTest themeContextAt line

/-- `isStyleContext` of `javascript.ts`: the ordered checks of the source,
short-circuit. -/
def isStyleContext (line : List Char) (matchIndex : ℕ) : Bool :=
  let trimmedLine := trimL line
  let beforeMatch := line.take matchIndex
  if containsSub ['/', '/'] beforeMatch then false
  else if lastIndexOfSub ['/', '*'] beforeMatch > lastIndexOfSub ['*', '/'] beforeMatch then false
  else if startsWithL ['/', '/'] trimmedLine || startsWithL ['/', '*'] trimmedLine ||
      startsWithL ['*'] trimmedLine then false
  else if hasStyleKeyword line then true
  else if hasCssInJs line then true
  else if objectPatternTest beforeMatch && stylePropertyTest line then true
  else if styleVarTest line then true
  else if themeContextTest line then true
  else false

/-- `isValidColor` of `javascript.ts`: `parseColor(value) !== null`. -/
def isValidColor (value : List Char) : Bool := (parseColorL value).isSome

/-- One token-pattern match turned into a `Color` (the push inside the five
regex loops), guarded by `isStyleContext`. -/
def tokenColor (lineIndex : ℕ) (line : List Char) (m : ℕ × ℕ) : List Color :=
  if isStyleContext line m.1 then
    [⟨⟨(line.drop m.1).take m.2⟩, detectColorFormatL ((line.drop m.1).take m.2),
      some ⟨lineIndex + 1, m.1 + 1⟩, some ⟨trimL line⟩⟩]
  else []

/-- One string-literal match turned into a `Color` (the
`STRING_COLOR_PATTERN` loop): the value is the group between the quotes,
the position is that of the opening quote. -/
def stringColor (lineIndex : ℕ) (line : List Char) (m : ℕ × ℕ) : List Color :=
  let sv := (line.drop (m.1 + 1)).take (m.2 - 2)
  if !sv.isEmpty ∧ isValidColor sv ∧ isStyleContext line m.1 then
    [⟨⟨sv⟩, detectColorFormatL sv, some ⟨lineIndex + 1, m.1 + 1⟩, some ⟨trimL line⟩⟩]
  else []

/-- One line of `extractFromJavaScript`: the six pattern loops in source
order (the token patterns are the same five as the CSS extractor's). -/
def lineColors (lineIndex : ℕ) (line : List Char) : List Color :=
  (execAll Css.hexTokenAt line ++ execAll Css.rgbTokenAt line ++
    execAll Css.rgbaTokenAt line ++ execAll Css.hslTokenAt line ++
    execAll Css.hslaTokenAt line).flatMap (tokenColor lineIndex line) ++
  (execAll stringTokenAt line).flatMap (stringColor lineIndex line)

def extractAux : ℕ → List (List Char) → List Color
  | _, [] => []
  | n, line :: rest => lineColors n line ++ extractAux (n + 1) rest

/-- The dedup key `` `${value}-${line}` `` (modelled as the pair). -/
def dedupKey (c : Color) : String × ℕ :=
  (c.value, match c.position with | some p => p.line | none => 0)

/-- One step of `new Map(colors.map(c => [key, c]))`: a repeated key keeps
its first position but takes the latest color. -/
def upsert (k : String × ℕ) (v : Color) :
    List ((String × ℕ) × Color) → List ((String × ℕ) × Color)
  | [] => [(k, v)]
  | (k2, v2) :: t => if k2 = k then (k2, v) :: t else (k2, v2) :: upsert k v t

/-- `Array.from(new Map(colors.map(c => [key, c])).values())`. -/
def dedupByValueLine (colors : List Color) : List Color :=
  (colors.foldl (fun acc c => upsert (dedupKey c) c acc) []).map (fun p => p.2)

/-- `extractFromJavaScript`. -/
def extractFromJavaScript (content : String) : List Color :=
  dedupByValueLine (extractAux 0 (splitOnNl content.data))

end Js

/-- A `g`-flag exec loop that also returns the extracted value of each
match (`match[2] || match[1] || match[0]`, precomputed by the per-pattern
matcher).  Same advancement discipline as `execAllAux`. -/
def execAllV (matchAt : List Char → Option (ℕ × List Char)) :
    ℕ → List Char → ℕ → List (ℕ × List Char)
  | 0, _, _ => []
  | _ + 1, [], _ => []
  | fuel + 1, c :: rest, i =>
    match matchAt (c :: rest) with
    | some (len, v) =>
      if len = 0 then execAllV matchAt fuel rest (i + 1)
      else (i, v) :: execAllV matchAt fuel ((c :: rest).drop len) (i + len)
    | none => execAllV matchAt fuel rest (i + 1)

/-! ## The Stylus extractor (`src/extraction/formats/stylus.ts`) -/

namespace Stylus

/-- `[\w-]+`. -/
def eatWordDash1 (s : List Char) : Option (List Char) :=
  let run := s.takeWhile (fun c => isWordChar c || c == '-')
  if run.isEmpty then none else some (s.drop run.length)

/-- One function alternative of the first Stylus pattern's value group:
`kw\([^)]+\)` (case-insensitive keyword, `i` flag) followed by `\s*$`.
Returns the matched slice in its original casing. -/
def styFnValue (kw : List Char) (s : List Char) : Option (List Char) :=
  if lowerL (s.take (kw.length + 1)) = kw ++ ['('] then
    let afterParen := s.drop (kw.length + 1)
    let inner := afterParen.takeWhile (fun c => !(c == ')'))
    if inner.isEmpty then none
    else
      match afterParen.drop inner.length with
      | ')' :: rest =>
        if (rest.dropWhile isJsSpace).isEmpty then
          some (s.take (kw.length + 1 + inner.length + 1))
        else none
      | _ => none
  else none

/-- The value group of Stylus pattern 1:
`(#[0-9a-f]{3,8}|rgb\([^)]+\)|rgba\([^)]+\)|hsl\([^)]+\)|hsla\([^)]+\)|[a-z]+)`
followed by `\s*$`, alternatives in source order (`i` flag throughout).
For the hex alternative only the full digit run can satisfy the trailing
`\s*$`, so it must have length 3–8. -/
def styP1Value (s : List Char) : Option (List Char) :=
  (match s with
   | '#' :: rest =>
     let run := rest.takeWhile isHexDigit
     if 3 ≤ run.length ∧ run.length ≤ 8 ∧ ((rest.drop run.length).dropWhile isJsSpace).isEmpty then
       some ('#' :: run)
     else none
   | _ => none) <|>
  styFnValue ['r', 'g', 'b'] s <|>
  styFnValue ['r', 'g', 'b', 'a'] s <|>
  styFnValue ['h', 's', 'l'] s <|>
  styFnValue ['h', 's', 'l', 'a'] s <|>
  (let run := s.takeWhile isAsciiLetter
   if ¬ run.isEmpty ∧ ((s.drop run.length).dropWhile isJsSpace).isEmpty then some run else none)

/-- The body of Stylus pattern 1 from the start of the variable name:
`([\w-]+|\$[\w-]+)\s*[=:]\s*` then the value group.  If `[\w-]+` matches,
its head is not `$`, so the second alternative cannot rescue a failed
continuation — the scanner is deterministic. -/
def styP1Core (s : List Char) : Option (List Char) :=
  let cont : List Char → Option (List Char) := fun s1 =>
    match eatWs s1 with
    | c :: s3 => if c == '=' || c == ':' then styP1Value (eatWs s3) else none
    | [] => none
  match eatWordDash1 s with
  | some s1 => cont s1
  | none =>
    match s with
    | '$' :: s0 => (eatWordDash1 s0).bind cont
    | _ => none

/-- Scan for the first start position of Stylus pattern 1.  Position 0 may
enter through `^`; any position whose character is whitespace may enter
through `\s` (the whitespace then belongs to the match, so `match.index`
points at it). -/
def styP1FindAux : List Char → ℕ → Option (ℕ × List Char)
  | [], _ => none
  | c :: rest, i =>
    match (if i = 0 then styP1Core (c :: rest) else none) with
    | some v => some (i, v)
    | none =>
      if isJsSpace c then
        match styP1Core rest with
        | some v => some (i, v)
        | none => styP1FindAux rest (i + 1)
      else styP1FindAux rest (i + 1)

/-- All matches of Stylus pattern 1 on a line: the match extends through
`\s*$` to the end of the line, so there is at most one. -/
def styP1Matches (line : List Char) : List (ℕ × List Char) :=
  match styP1FindAux line 0 with
  | some (i, v) => [(i, v)]
  | none => []

def styKeywords2 : List (List Char) :=
  [['c','o','l','o','r'], ['b','a','c','k','g','r','o','u','n','d'],
   ['b','o','r','d','e','r'], ['o','u','t','l','i','n','e'],
   ['b','o','x','-','s','h','a','d','o','w'], ['t','e','x','t','-','s','h','a','d','o','w']]

def notSemi (c : Char) : Bool := !(c == ';' || c == '\n')

/-- Stylus pattern 2:
`/(?:color|background|border|outline|box-shadow|text-shadow)\s*:?\s*([^;\n]+)/gi`
at the start of `t`.  When the engine backtracks a `\s*` (because the
post-whitespace group would otherwise be empty) the raw group gains leading
whitespace; since the caller immediately trims the group, this scanner
always keeps the whitespace in the group — trim-equal to the engine's
group, with the same match extent. -/
def styP2At (t : List Char) : Option (ℕ × List Char) :=
  (styKeywords2.find? (fun kw => lowerL (t.take kw.length) == kw)).bind fun kw =>
    let s1 := t.drop kw.length
    let ws1 := s1.takeWhile isJsSpace
    match s1.drop ws1.length with
    | ':' :: s3 =>
      let g := s3.takeWhile notSemi
      if g.isEmpty then
        let g2 := (':' :: s3).takeWhile notSemi
        some (kw.length + ws1.length + g2.length, g2)
      else some (kw.length + ws1.length + 1 + g.length, g)
    | _ =>
      let g := s1.takeWhile notSemi
      if g.isEmpty then none else some (kw.length + g.length, g)

def styKeywords3 : List (List Char) :=
  [['l','i','g','h','t','e','n'], ['d','a','r','k','e','n'],
   ['s','a','t','u','r','a','t','e'], ['d','e','s','a','t','u','r','a','t','e'],
   ['a','d','j','u','s','t','-','h','u','e'], ['m','i','x'], ['r','g','b','a']]

def notCommaParen (c : Char) : Bool := !(c == ',' || c == ')')

/-- Stylus pattern 3:
`/(?:lighten|darken|saturate|desaturate|adjust-hue|mix|rgba)\s*\(\s*([^,)]+)/gi`;
the same trim-equal whitespace convention as pattern 2. -/
def styP3At (t : List Char) : Option (ℕ × List Char) :=
  (styKeywords3.find? (fun kw => lowerL (t.take kw.length) == kw)).bind fun kw =>
    let s1 := t.drop kw.length
    let ws1 := s1.takeWhile isJsSpace
    match s1.drop ws1.length with
    | '(' :: s2 =>
      let g := s2.takeWhile notCommaParen
      if g.isEmpty then none else some (kw.length + ws1.length + 1 + g.length, g)
    | _ => none

/-- Stylus pattern 4: `/#[0-9a-f]{3,8}/gi` — greedy, no word boundary. -/
def styP4At (t : List Char) : Option (ℕ × List Char) :=
  match t with
  | '#' :: rest =>
    let run := rest.takeWhile isHexDigit
    if 3 ≤ run.length then
      let k := min run.length 8
      some (1 + k, '#' :: run.take k)
    else none
  | _ => none

/-- Stylus pattern 5: `/rgba?\s*\([^)]+\)/gi`.  If the optional `a` is
taken and the rest fails, dropping it cannot succeed either (the next
character would have to be whitespace or `(`, and `a` is neither), so the
greedy choice is exact. -/
def styP5At (t : List Char) : Option (ℕ × List Char) :=
  if lowerL (t.take 3) = ['r', 'g', 'b'] then
    let s1 := t.drop 3
    let s2 : List Char :=
      match s1 with
      | c :: rest => if c == 'a' || c == 'A' then rest else s1
      | [] => s1
    match eatWs s2 with
    | '(' :: s3 =>
      let inner := s3.takeWhile (fun c => !(c == ')'))
      if inner.isEmpty then none
      else
        match s3.drop inner.length with
        | ')' :: rest =>
          let len := t.length - rest.length
          some (len, t.take len)
        | _ => none
    | _ => none
  else none

/-- Stylus pattern 6: `/hsla?\s*\([^)]+\)/gi`. -/
def styP6At (t : List Char) : Option (ℕ × List Char) :=
  if lowerL (t.take 3) = ['h', 's', 'l'] then
    let s1 := t.drop 3
    let s2 : List Char :=
      match s1 with
      | c :: rest => if c == 'a' || c == 'A' then rest else s1
      | [] => s1
    match eatWs s2 with
    | '(' :: s3 =>
      let inner := s3.takeWhile (fun c => !(c == ')'))
      if inner.isEmpty then none
      else
        match s3.drop inner.length with
        | ')' :: rest =>
          let len := t.length - rest.length
          some (len, t.take len)
        | _ => none
    | _ => none
  else none

/-- The `namedColors` list of `stylus.ts` (141 entries). -/
def namedColors : List String :=
  ["aliceblue", "antiquewhite", "aqua", "aquamarine", "azure", "beige",
   "bisque", "black", "blanchedalmond", "blue", "blueviolet", "brown",
   "burlywood", "cadetblue", "chartreuse", "chocolate", "coral", "cornflowerblue",
   "cornsilk", "crimson", "cyan", "darkblue", "darkcyan", "darkgoldenrod",
   "darkgray", "darkgreen", "darkkhaki", "darkmagenta", "darkolivegreen", "darkorange",
   "darkorchid", "darkred", "darksalmon", "darkseagreen", "darkslateblue", "darkslategray",
   "darkturquoise", "darkviolet", "deeppink", "deepskyblue", "dimgray", "dodgerblue",
   "firebrick", "floralwhite", "forestgreen", "fuchsia", "gainsboro", "ghostwhite",
   "gold", "goldenrod", "gray", "green", "greenyellow", "honeydew",
   "hotpink", "indianred", "indigo", "ivory", "khaki", "lavender",
   "lavenderblush", "lawngreen", "lemonchiffon", "lightblue", "lightcoral", "lightcyan",
   "lightgoldenrodyellow", "lightgray", "lightgreen", "lightpink", "lightsalmon", "lightseagreen",
   "lightskyblue", "lightslategray", "lightsteelblue", "lightyellow", "lime", "limegreen",
   "linen", "magenta", "maroon", "mediumaquamarine", "mediumblue", "mediumorchid",
   "mediumpurple", "mediumseagreen", "mediumslateblue", "mediumspringgreen", "mediumturquoise", "mediumvioletred",
   "midnightblue", "mintcream", "mistyrose", "moccasin", "navajowhite", "navy",
   "oldlace", "olive", "olivedrab", "orange", "orangered", "orchid",
   "palegoldenrod", "palegreen", "paleturquoise", "palevioletred", "papayawhip", "peachpuff",
   "peru", "pink", "plum", "powderblue", "purple", "red",
   "rosybrown", "royalblue", "saddlebrown", "salmon", "sandybrown", "seagreen",
   "seashell", "sienna", "silver", "skyblue", "slateblue", "slategray",
   "snow", "springgreen", "steelblue", "tan", "teal", "thistle",
   "tomato", "turquoise", "violet", "wheat", "white", "whitesmoke",
   "yellow", "yellowgreen", "transparent"]

/-- `isNamedColor`. -/
def isNamedColor (value : List Char) : Bool :=
  namedColors.contains (String.mk (lowerL value))

/-- Anchored validator `/^#[0-9a-f]{3,8}$/i`. -/
def hexValid (value : List Char) : Bool :=
  match value with
  | '#' :: ds => 3 ≤ ds.length ∧ ds.length ≤ 8 ∧ ds.all isHexDigit
  | _ => false

/-- Case-insensitive literal step. -/
def eatLitCI (pat s : List Char) : Option (List Char) :=
  if lowerL (s.take pat.length) = pat then some (s.drop pat.length) else none

/-- Anchored validator `/^rgb\s*\(\s*\d+\s*,\s*\d+\s*,\s*\d+\s*\)$/i`. -/
def rgbValid (value : List Char) : Bool :=
  (((eatLitCI ['r', 'g', 'b'] value).bind fun s1 =>
    (eatLit ['('] (eatWs s1)).bind fun s2 =>
    (eatDigits1 (eatWs s2)).bind fun (_, s3) =>
    (eatLit [','] (eatWs s3)).bind fun s4 =>
    (eatDigits1 (eatWs s4)).bind fun (_, s5) =>
    (eatLit [','] (eatWs s5)).bind fun s6 =>
    (eatDigits1 (eatWs s6)).bind fun (_, s7) =>
    (eatLit [')'] (eatWs s7))).map List.isEmpty).getD false

/-- Anchored validator `/^rgba\s*\(\s*\d+\s*,\s*\d+\s*,\s*\d+\s*,\s*[\d.]+\s*\)$/i`. -/
def rgbaValid (value : List Char) : Bool :=
  (((eatLitCI ['r', 'g', 'b', 'a'] value).bind fun s1 =>
    (eatLit ['('] (eatWs s1)).bind fun s2 =>
    (eatDigits1 (eatWs s2)).bind fun (_, s3) =>
    (eatLit [','] (eatWs s3)).bind fun s4 =>
    (eatDigits1 (eatWs s4)).bind fun (_, s5) =>
    (eatLit [','] (eatWs s5)).bind fun s6 =>
    (eatDigits1 (eatWs s6)).bind fun (_, s7) =>
    (eatLit [','] (eatWs s7)).bind fun s8 =>
    (eatNumDot1 (eatWs s8)).bind fun (_, s9) =>
    (eatLit [')'] (eatWs s9))).map List.isEmpty).getD false

/-- Anchored validator `/^hsl\s*\(\s*\d+\s*,\s*\d+%\s*,\s*\d+%\s*\)$/i`. -/
def hslValid (value : List Char) : Bool :=
  (((eatLitCI ['h', 's', 'l'] value).bind fun s1 =>
    (eatLit ['('] (eatWs s1)).bind fun s2 =>
    (eatDigits1 (eatWs s2)).bind fun (_, s3) =>
    (eatLit [','] (eatWs s3)).bind fun s4 =>
    (eatDigits1 (eatWs s4)).bind fun (_, s5) =>
    (eatLit ['%'] s5).bind fun s5a =>
    (eatLit [','] (eatWs s5a)).bind fun s6 =>
    (eatDigits1 (eatWs s6)).bind fun (_, s7) =>
    (eatLit ['%'] s7).bind fun s7a =>
    (eatLit [')'] (eatWs s7a))).map List.isEmpty).getD false

/-- Anchored validator
`/^hsla\s*\(\s*\d+\s*,\s*\d+%\s*,\s*\d+%\s*,\s*[\d.]+\s*\)$/i`. -/
def hslaValid (value : List Char) : Bool :=
  (((eatLitCI ['h', 's', 'l', 'a'] value).bind fun s1 =>
    (eatLit ['('] (eatWs s1)).bind fun s2 =>
    (eatDigits1 (eatWs s2)).bind fun (_, s3) =>
    (eatLit [','] (eatWs s3)).bind fun s4 =>
    (eatDigits1 (eatWs s4)).bind fun (_, s5) =>
    (eatLit ['%'] s5).bind fun s5a =>
    (eatLit [','] (eatWs s5a)).bind fun s6 =>
    (eatDigits1 (eatWs s6)).bind fun (_, s7) =>
    (eatLit ['%'] s7).bind fun s7a =>
    (eatLit [','] (eatWs s7a)).bind fun s8 =>
    (eatNumDot1 (eatWs s8)).bind fun (_, s9) =>
    (eatLit [')'] (eatWs s9))).map List.isEmpty).getD false

/-- `isValidColorValue` of `stylus.ts`.  The function-without-color-prefix
rejection uses a case-sensitive `startsWith` test (`value.match` without the
`i` flag); the five format validators then run with `i`. -/
def isValidColorValue (value : List Char) : Bool :=
  if value.isEmpty then false
  else if containsSub ['('] value &&
      !(startsWithL ['r','g','b','('] value || startsWithL ['r','g','b','a','('] value ||
        startsWithL ['h','s','l','('] value || startsWithL ['h','s','l','a','('] value) then
    false
  else
    hexValid value || rgbValid value || rgbaValid value || hslValid value || hslaValid value ||
      isNamedColor value

/-- `determineColorFormat` of `stylus.ts` (case-sensitive `startsWith`). -/
def determineColorFormat (value : List Char) : ColorFormat :=
  if startsWithL ['#'] value then .hex
  else if startsWithL ['r','g','b','('] value then .rgb
  else if startsWithL ['r','g','b','a','('] value then .rgba
  else if startsWithL ['h','s','l','('] value then .hsl
  else if startsWithL ['h','s','l','a','('] value then .hsla
  else if isNamedColor value then .named
  else .unknown

/-- `getContextType` of `stylus.ts`. -/
def getContextType (line : List Char) : String :=
  if containsSub ['='] line || containsSub ['$'] line then "variable"
  else if containsSub ['(', ')'] line || containsSub ['('] line then "function"
  else if containsSub [':'] line then "property"
  else "declaration"

/-- One line of `extractFromStylus`: the six patterns in source order.
Note the emitted `column` is the raw `match.index`, with no `+ 1`. -/
def lineColors (lineIndex : ℕ) (line : List Char) : List Color :=
  if line.isEmpty then []
  else
    (styP1Matches line ++ execAllV styP2At (line.length + 1) line 0 ++
      execAllV styP3At (line.length + 1) line 0 ++ execAllV styP4At (line.length + 1) line 0 ++
      execAllV styP5At (line.length + 1) line 0 ++
      execAllV styP6At (line.length + 1) line 0).flatMap fun m =>
      let colorValue := trimL m.2
      if colorValue.isEmpty then []
      else if isValidColorValue colorValue then
        [⟨⟨colorValue⟩, determineColorFormat colorValue, some ⟨lineIndex + 1, m.1⟩,
          some ("Stylus " ++ getContextType line)⟩]
      else []

def extractAux : ℕ → List (List Char) → List Color
  | _, [] => []
  | n, line :: rest => lineColors n line ++ extractAux (n + 1) rest

/-- `extractFromStylus`. -/
def extractFromStylus (content : String) : List Color :=
  extractAux 0 (splitOnNl content.data)

end Stylus

/-! ## The palette analyzer (`analyzer.ts`, `src/unnamed/part_001`) -/

namespace Analyzer

/-- The `{h, s, l}` triple returned by the analyzer's internal HSL parser.
All three components are integers at this point (`Math.round` for hex
input, `parseInt` for `hsl()` input). -/
structure HSLTriple where
  h : ℤ
  s : ℤ
  l : ℤ
deriving DecidableEq

/-- The arithmetic tail of `hexToHSL`, from the three parsed byte values
(`h /= 6` applied after the `switch`; the achromatic case tests
`max === min`). -/
def hexToHSLCore (r g b : ℕ) : HSLTriple :=
  let rn := (r : ℚ) / 255
  let gn := (g : ℚ) / 255
  let bn := (b : ℚ) / 255
  let mx := max rn (max gn bn)
  let mn := min rn (min gn bn)
  let l := (mx + mn) / 2
  let s :=
    if mx = mn then 0
    else if l > 1/2 then (mx - mn) / (2 - mx - mn) else (mx - mn) / (mx + mn)
  let h :=
    if mx = mn then 0
    else
      (if mx = rn then (gn - bn) / (mx - mn) + (if gn < bn then 6 else 0)
       else if mx = gn then (bn - rn) / (mx - mn) + 2
       else if mx = bn then (rn - gn) / (mx - mn) + 4
       else 0) / 6
  ⟨jsRound (h * 360), jsRound (s * 100), jsRound (l * 100)⟩

/-- `hexToHSL`: its own regex `/^#?([a-f\d]{2})([a-f\d]{2})([a-f\d]{2})$/i`
accepts exactly six hex digits after an optional `#` (a 3-digit hex fails
here even though `parseColorToHSL`'s guard admitted it). -/
def hexToHSL (hex : List Char) : Option HSLTriple :=
  let body : Option (List Char) :=
    match hex with
    | '#' :: rest => if rest.length = 6 ∧ rest.all isHexDigit then some rest else none
    | l => if l.length = 6 ∧ l.all isHexDigit then some l else none
  body.bind fun ds =>
    match jsParseIntHex (ds.take 2), jsParseIntHex ((ds.drop 2).take 2),
        jsParseIntHex ((ds.drop 4).take 2) with
    | some r, some g, some b => some (hexToHSLCore r g b)
    | _, _, _ => none

/-- Start-anchored matcher for the analyzer's unanchored
`/hsl\(\s*(\d+)\s*,\s*(\d+)%\s*,\s*(\d+)%\s*\)/i`. -/
def hslLitAt (s : List Char) : Option (List Char × List Char × List Char) :=
  (if lowerL (s.take 4) = ['h', 's', 'l', '('] then some (s.drop 4) else none).bind fun s1 =>
  (eatDigits1 (eatWs s1)).bind fun (g1, s2) =>
  (eatLit [','] (eatWs s2)).bind fun s3 =>
  (eatDigits1 (eatWs s3)).bind fun (g2, s4) =>
  (eatLit ['%'] s4).bind fun s4a =>
  (eatLit [','] (eatWs s4a)).bind fun s5 =>
  (eatDigits1 (eatWs s5)).bind fun (g3, s6) =>
  (eatLit ['%'] s6).bind fun s6a =>
  (eatLit [')'] (eatWs s6a)).map fun _ => (g1, g2, g3)

/-- `parseColorToHSL` of the analyzer, over `List Char`. -/
def parseColorToHSL (color : List Char) : Option HSLTriple :=
  let isHex36 : Bool :=
    match color with
    | '#' :: rest => (rest.length == 3 || rest.length == 6) && rest.all isHexDigit
    | _ => false
  if isHex36 then hexToHSL color
  else
    match searchM hslLitAt color with
    | some (g1, g2, g3) =>
      some ⟨(natOfDigits g1 : ℤ), (natOfDigits g2 : ℤ), (natOfDigits g3 : ℤ)⟩
    | none => none

def parseColorToHSLStr (color : String) : Option HSLTriple := parseColorToHSL color.data

/-- JS `Math.max(...xs)` on a list known nonempty at every call site
(`-Infinity` for the empty spread is never needed; `0` stands in). -/
def listMax : List ℤ → ℤ
  | [] => 0
  | h :: t => t.foldl max h

def listMin : List ℤ → ℤ
  | [] => 0
  | h :: t => t.foldl min h

/-- The harmony `type` union. -/
inductive HarmonyType
  | monochromatic
  | analogous
  | complementary
  | triadic
  | tetradic
  | splitComplementary
  | none
deriving DecidableEq

/-- `ColorHarmony`. -/
structure ColorHarmony where
  type : HarmonyType
  colors : List String
  confidence : ℚ
  description : String
deriving DecidableEq

/-- `detectColorHarmony` of the analyzer. -/
def detectColorHarmony (colors : List String) : ColorHarmony :=
  if colors.length < 2 then
    ⟨.none, colors, 0, "Insufficient colors for harmony analysis"⟩
  else
    let hslColors := colors.filterMap parseColorToHSLStr
    if hslColors.length < 2 then
      ⟨.none, colors, 0, "Unable to analyze color harmony"⟩
    else
      let hues := hslColors.map (fun hsl => hsl.h)
      let hueRange := listMax hues - listMin hues
      if hueRange < 30 then
        ⟨.monochromatic, colors, 0.8,
          "Monochromatic color scheme with variations in saturation and lightness"⟩
      else if hslColors.length = 2 then
        if |(|hues.getD 0 0 - hues.getD 1 0|) - 180| < 30 then
          ⟨.complementary, colors, 0.9, "Complementary color scheme with opposite hues"⟩
        else ⟨.none, colors, 0.3, "No clear color harmony pattern detected"⟩
      else ⟨.none, colors, 0.3, "No clear color harmony pattern detected"⟩

/-- JS `[...new Set(xs)]`: first occurrences, in order. -/
def nubAux {α : Type} [BEq α] : List α → List α → List α
  | [], _ => []
  | x :: t, seen => if seen.contains x then nubAux t seen else x :: nubAux t (x :: seen)

def nubKeepFirst {α : Type} [BEq α] (l : List α) : List α := nubAux l []

def lowerStr (s : String) : String := ⟨lowerL s.data⟩

/-- Occurrence count (the per-key counters of the `Map` loops). -/
def countOcc {α : Type} [BEq α] (l : List α) (x : α) : ℕ := (l.filter (fun y => y == x)).length

/-- Stable descending insertion by a numeric key: the JS
`sort((a, b) => b.count - a.count)` (V8 sort is stable). -/
def insDesc {α : Type} (key : α → ℕ) (x : α) : List α → List α
  | [] => [x]
  | y :: t => if key y ≤ key x then x :: y :: t else y :: insDesc key x t

def sortByKeyDesc {α : Type} (key : α → ℕ) : List α → List α
  | [] => []
  | x :: t => insDesc key x (sortByKeyDesc key t)

/-- One `byFormat` entry. -/
structure FormatCount where
  format : ColorFormat
  count : ℕ
  percentage : ℚ
deriving DecidableEq

/-- One `mostCommon` entry. -/
structure ValueCount where
  color : String
  count : ℕ
  percentage : ℚ
deriving DecidableEq

/-- `ColorStatistics`. -/
structure ColorStatistics where
  total : ℕ
  unique : ℕ
  byFormat : List FormatCount
  mostCommon : List ValueCount
  dominantHue : Option ℚ
  averageSaturation : Option ℚ
  averageLightness : Option ℚ
  contrastRatio : Option ℚ
deriving DecidableEq

/-- `calculateColorStatistics` of the analyzer. -/
def calculateColorStatistics (colors : List Color) : ColorStatistics :=
  if colors.length = 0 then ⟨0, 0, [], [], none, none, none, none⟩
  else
    let colorValues := colors.map (fun c => lowerStr c.value)
    let uniqueColors := nubKeepFirst colorValues
    let formats := colors.map (fun c => c.format)
    let byFormat :=
      sortByKeyDesc (fun e => e.count)
        ((nubKeepFirst formats).map fun f =>
          (⟨f, countOcc formats f, (countOcc formats f : ℚ) / colors.length * 100⟩ : FormatCount))
    let mostCommon :=
      (sortByKeyDesc (fun e => e.count)
        ((nubKeepFirst colorValues).map fun v =>
          (⟨v, countOcc colorValues v,
            (countOcc colorValues v : ℚ) / colors.length * 100⟩ : ValueCount))).take 10
    let hslValues := colors.filterMap (fun c => parseColorToHSLStr c.value)
    let dominantHue : Option ℚ :=
      if 0 < hslValues.length then
        some ((((hslValues.map (fun hsl => hsl.h)).sum : ℤ) : ℚ) / hslValues.length)
      else none
    let averageSaturation : Option ℚ :=
      if 0 < hslValues.length then
        some ((((hslValues.map (fun hsl => hsl.s)).sum : ℤ) : ℚ) / hslValues.length)
      else none
    let averageLightness : Option ℚ :=
      if 0 < hslValues.length then
        some ((((hslValues.map (fun hsl => hsl.l)).sum : ℤ) : ℚ) / hslValues.length)
      else none
    ⟨colors.length, uniqueColors.length, byFormat, mostCommon, dominantHue,
      averageSaturation, averageLightness, none⟩

/-- `calculateHueVariance` (population variance). -/
def calculateHueVariance (hues : List ℚ) : ℚ :=
  if hues.length ≤ 1 then 0
  else
    let mean := hues.sum / hues.length
    (hues.map (fun h => (h - mean) ^ 2)).sum / hues.length

/-- `ColorCluster`. -/
structure ColorCluster where
  centroid : String
  colors : List String
  size : ℕ
  variance : ℚ
  label : Option String
deriving DecidableEq

/-- One hue band of `clusterColors`. -/
def hueBand (hslColors : List (String × HSLTriple)) (mn mx : ℤ) (label : String) :
    List ColorCluster :=
  let inRange := hslColors.filter (fun p => mn ≤ p.2.h ∧ p.2.h < mx)
  if 0 < inRange.length then
    [⟨(inRange.map (fun p => p.1)).headD "", inRange.map (fun p => p.1), inRange.length,
      calculateHueVariance (inRange.map (fun p => (p.2.h : ℚ))), some label⟩]
  else []

/-- The hue-bucket phase of `clusterColors`: the seven fixed bands in
source order, capped by `slice(0, maxClusters)`. -/
def clusterBuckets (hslColors : List (String × HSLTriple)) (maxClusters : ℕ) :
    List ColorCluster :=
  if hslColors.length = 0 then []
  else
    (hueBand hslColors 0 30 "Red" ++ hueBand hslColors 30 60 "Orange" ++
      hueBand hslColors 60 120 "Yellow" ++ hueBand hslColors 120 180 "Green" ++
      hueBand hslColors 180 240 "Cyan" ++ hueBand hslColors 240 300 "Blue" ++
      hueBand hslColors 300 360 "Magenta").take maxClusters

/-- `clusterColors` of the analyzer. -/
def clusterColors (colors : List Color) (maxClusters : ℕ) : List ColorCluster :=
  let uniqueColors := nubKeepFirst (colors.map (fun c => lowerStr c.value))
  if uniqueColors.length ≤ maxClusters then
    uniqueColors.map (fun c => ⟨c, [c], 1, 0, none⟩)
  else
    clusterBuckets
      (uniqueColors.filterMap (fun c => (parseColorToHSLStr c).map (fun h => (c, h))))
      maxClusters

/-- Decimal string of an integer (for the gap descriptions). -/
def intToDecString (i : ℤ) : List Char :=
  if i < 0 then '-' :: natToDec i.natAbs else natToDec i.toNat

/-- `ColorGap`. -/
structure ColorGap where
  type : String
  description : String
  missingColors : List String
  severity : String
  suggestions : List String
deriving DecidableEq

/-- Ascending insertion sort: the JS `sort((a, b) => a - b)` on numbers. -/
def insAsc (x : ℤ) : List ℤ → List ℤ
  | [] => [x]
  | y :: t => if x ≤ y then x :: y :: t else y :: insAsc x t

def sortAsc : List ℤ → List ℤ
  | [] => []
  | x :: t => insAsc x (sortAsc t)

/-- Midpoints of adjacent sorted hues more than 60 apart. -/
def adjGaps : List ℤ → List ℚ
  | a :: b :: t => (if 60 < b - a then [((a : ℚ) + (b : ℚ)) / 2] else []) ++ adjGaps (b :: t)
  | _ => []

def joinSep (sep : List Char) : List (List Char) → List Char
  | [] => []
  | [x] => x
  | x :: y :: t => x ++ sep ++ joinSep sep (y :: t)

/-- `detectColorGaps` of the analyzer. -/
def detectColorGaps (colors : List Color) : List ColorGap :=
  let uniqueColors := nubKeepFirst (colors.map (fun c => lowerStr c.value))
  let hslColors := uniqueColors.filterMap parseColorToHSLStr
  if hslColors.length = 0 then []
  else
    let hues := sortAsc (hslColors.map (fun hsl => hsl.h))
    let hueGaps := adjGaps hues
    let gaps1 : List ColorGap :=
      if 0 < hueGaps.length then
        [⟨"hue",
          ⟨('M' :: "issing colors in hue ranges: ".data) ++
            joinSep [',', ' '] (hueGaps.map (fun h => intToDecString (jsRound h))) ++ ['°']⟩,
          hueGaps.map (fun h =>
            ⟨['h','s','l','('] ++ intToDecString (jsRound h) ++ (", 50%, 50%)" : String).data⟩),
          if 2 < hueGaps.length then "high" else "medium",
          ["Consider adding colors in the missing hue ranges for better color balance"]⟩]
      else []
    let lightnesses := sortAsc (hslColors.map (fun hsl => hsl.l))
    let hasVeryDark := lightnesses.any (fun l => l < 20)
    let hasVeryLight := lightnesses.any (fun l => 80 < l)
    let gaps2 : List ColorGap :=
      if ¬ hasVeryDark ∧ ¬ hasVeryLight then
        [⟨"lightness", "Missing very dark and very light colors", ["#000000", "#ffffff"],
          "medium", ["Add darker and lighter variants for better contrast options"]⟩]
      else []
    gaps1 ++ gaps2

inductive Temperature
  | warm
  | cool
  | neutral
deriving DecidableEq

/-- `determineTemperature` of the analyzer. -/
def determineTemperature (colors : List String) : Temperature :=
  let hslColors := colors.filterMap parseColorToHSLStr
  if hslColors.length = 0 then .neutral
  else
    let warmCount :=
      (hslColors.filter (fun hsl => (0 ≤ hsl.h ∧ hsl.h < 60) ∨ (300 ≤ hsl.h ∧ hsl.h ≤ 360))).length
    let coolCount := (hslColors.filter (fun hsl => 180 ≤ hsl.h ∧ hsl.h < 300)).length
    if (coolCount : ℚ) * 1.5 < (warmCount : ℚ) then .warm
    else if (warmCount : ℚ) * 1.5 < (coolCount : ℚ) then .cool
    else .neutral

inductive Mood
  | vibrant
  | muted
  | pastel
  | dark
  | light
deriving DecidableEq

/-- `determineMood` of the analyzer. -/
def determineMood (colors : List String) : Mood :=
  let hslColors := colors.filterMap parseColorToHSLStr
  if hslColors.length = 0 then .muted
  else
    let avgSaturation := (((hslColors.map (fun hsl => hsl.s)).sum : ℤ) : ℚ) / hslColors.length
    let avgLightness := (((hslColors.map (fun hsl => hsl.l)).sum : ℤ) : ℚ) / hslColors.length
    if avgLightness < 30 then .dark
    else if 80 < avgLightness then .light
    else if 70 < avgSaturation ∧ 50 < avgLightness then .vibrant
    else if 40 < avgSaturation ∧ 70 < avgLightness then .pastel
    else .muted

end Analyzer


/-! ## Supporting lemmas -/

def lowerHexDigits : List Char :=
  (List.range 16).map hexDigitChar

lemma mem_lowerHex_facts : ∀ c ∈ lowerHexDigits,
    hexVal c = some ((hexVal c).getD 0) ∧ (hexVal c).getD 0 < 16 ∧
    hexDigitChar ((hexVal c).getD 0) = c ∧ isJsSpace c = false := by decide

lemma jsParseIntHex_pair : ∀ c ∈ lowerHexDigits, ∀ d ∈ lowerHexDigits,
    jsParseIntHex [c, d] = some (16 * (hexVal c).getD 0 + (hexVal d).getD 0) := by decide

lemma dropWhile_eq_self_of (l : List Char) (h : ∀ c ∈ l, isJsSpace c = false) :
    l.dropWhile isJsSpace = l := by
  cases l with
  | nil => rfl
  | cons c t => simp [List.dropWhile_cons, h c (List.mem_cons_self c t)]

lemma trimL_eq_self (l : List Char) (h : ∀ c ∈ l, isJsSpace c = false) : trimL l = l := by
  unfold trimL
  rw [dropWhile_eq_self_of l h, dropWhile_eq_self_of, List.reverse_reverse]
  intro c hc
  exact h c (List.mem_reverse.mp hc)

lemma jsRound_natCast (n : ℕ) : jsRound (n : ℚ) = n := by
  rw [jsRound, add_comm, show ((n : ℚ)) = ((n : ℤ) : ℚ) by push_cast; ring, Int.floor_add_int]
  norm_num

lemma natToHexAux_unfold (fuel n : ℕ) (h : fuel ≠ 0) :
    natToHexAux fuel n =
      if n < 16 then [hexDigitChar n]
      else natToHexAux (fuel - 1) (n / 16) ++ [hexDigitChar (n % 16)] := by
  cases fuel with
  | zero => exact absurd rfl h
  | succ f => rfl

lemma padStart2_natToHex (n : ℕ) (h : n < 256) :
    padStart2 (natToHex n) = [hexDigitChar (n / 16), hexDigitChar (n % 16)] := by
  by_cases h16 : n < 16
  · rw [natToHex, natToHexAux_unfold _ _ (Nat.succ_ne_zero n), if_pos h16, padStart2]
    have hd : n / 16 = 0 := Nat.div_eq_of_lt h16
    have hm : n % 16 = n := Nat.mod_eq_of_lt h16
    simp [hd, hm]
    rfl
  · have hn : 16 ≤ n := le_of_not_lt h16
    rw [natToHex, natToHexAux_unfold _ _ (Nat.succ_ne_zero n), if_neg h16]
    have he : n + 1 - 1 = n := rfl
    rw [he, natToHexAux_unfold _ _ (by omega), if_pos (by omega : n / 16 < 16), padStart2]
    simp

lemma toHexChannel_nat (n : ℕ) (h : n < 256) :
    toHexChannel (n : ℚ) = [hexDigitChar (n / 16), hexDigitChar (n % 16)] := by
  rw [toHexChannel, jsRound_natCast, intToHexString, if_neg (by omega : ¬ ((n : ℤ) < 0))]
  rw [show ((n : ℤ)).toNat = n by omega]
  exact padStart2_natToHex n h

lemma jsRound_mul360 (q : ℚ) (h0 : 0 ≤ q) (h1 : q < 1) :
    0 ≤ ((jsRound (q * 360) : ℤ) : ℚ) ∧ ((jsRound (q * 360) : ℤ) : ℚ) ≤ 360 := by
  rw [jsRound]
  constructor
  · have h : (0 : ℤ) ≤ ⌊q * 360 + 1/2⌋ := Int.le_floor.mpr (by push_cast; nlinarith)
    exact_mod_cast h
  · have h : ⌊q * 360 + 1/2⌋ < 361 := by
      rw [Int.floor_lt]
      push_cast
      nlinarith
    have h2 : ⌊q * 360 + 1/2⌋ ≤ 360 := by omega
    exact_mod_cast h2

lemma rgbToHsl_h_bounds (rgb : RgbColor) :
    0 ≤ (rgbToHsl rgb).h ∧ (rgbToHsl rgb).h ≤ 360 := by
  simp only [rgbToHsl]
  set rn := rgb.r / 255 with hrn
  set gn := rgb.g / 255 with hgn
  set bn := rgb.b / 255 with hbn
  set mx := max rn (max gn bn) with hmx
  set mn := min rn (min gn bn) with hmn
  have h1 : rn ≤ mx := le_max_left _ _
  have h2 : gn ≤ mx := le_trans (le_max_left _ _) (le_max_right _ _)
  have h3 : bn ≤ mx := le_trans (le_max_right _ _) (le_max_right _ _)
  have h4 : mn ≤ rn := min_le_left _ _
  have h5 : mn ≤ gn := le_trans (min_le_right _ _) (min_le_left _ _)
  have h6 : mn ≤ bn := le_trans (min_le_right _ _) (min_le_right _ _)
  split_ifs with hd hr hglt hg hb
  · have hdpos : 0 < mx - mn := lt_of_le_of_ne (by linarith) (Ne.symm hd)
    have e1 : (gn - bn) / (mx - mn) ≤ 1 := (div_le_one hdpos).mpr (by linarith)
    have e4 : (gn - bn) / (mx - mn) < 0 := div_neg_of_neg_of_pos (by linarith) hdpos
    have e2 : (bn - gn) / (mx - mn) ≤ 1 := (div_le_one hdpos).mpr (by linarith)
    have e3 : (bn - gn) / (mx - mn) = -((gn - bn) / (mx - mn)) := by ring
    exact jsRound_mul360 _ (by linarith) (by linarith)
  · have hdpos : 0 < mx - mn := lt_of_le_of_ne (by linarith) (Ne.symm hd)
    have e1 : (gn - bn) / (mx - mn) ≤ 1 := (div_le_one hdpos).mpr (by linarith)
    have e5 : 0 ≤ (gn - bn) / (mx - mn) := div_nonneg (by linarith) hdpos.le
    exact jsRound_mul360 _ (by linarith) (by linarith)
  · have hdpos : 0 < mx - mn := lt_of_le_of_ne (by linarith) (Ne.symm hd)
    have e1 : (bn - rn) / (mx - mn) ≤ 1 := (div_le_one hdpos).mpr (by linarith)
    have e2 : (rn - bn) / (mx - mn) ≤ 1 := (div_le_one hdpos).mpr (by linarith)
    have e3 : (rn - bn) / (mx - mn) = -((bn - rn) / (mx - mn)) := by ring
    exact jsRound_mul360 _ (by linarith) (by linarith)
  · have hdpos : 0 < mx - mn := lt_of_le_of_ne (by linarith) (Ne.symm hd)
    have e1 : (rn - gn) / (mx - mn) ≤ 1 := (div_le_one hdpos).mpr (by linarith)
    have e2 : (gn - rn) / (mx - mn) ≤ 1 := (div_le_one hdpos).mpr (by linarith)
    have e3 : (gn - rn) / (mx - mn) = -((rn - gn) / (mx - mn)) := by ring
    exact jsRound_mul360 _ (by linarith) (by linarith)
  · exact jsRound_mul360 0 le_rfl (by norm_num)
  · exact jsRound_mul360 0 le_rfl (by norm_num)

lemma conv_rgbToHsl_h_bounds (rgb : Converter.ColorSpace) :
    0 ≤ (Converter.rgbToHsl rgb).h ∧ (Converter.rgbToHsl rgb).h ≤ 360 := by
  simp only [Converter.rgbToHsl]
  set rn := rgb.r / 255 with hrn
  set gn := rgb.g / 255 with hgn
  set bn := rgb.b / 255 with hbn
  set mx := max rn (max gn bn) with hmx
  set mn := min rn (min gn bn) with hmn
  have h1 : rn ≤ mx := le_max_left _ _
  have h2 : gn ≤ mx := le_trans (le_max_left _ _) (le_max_right _ _)
  have h3 : bn ≤ mx := le_trans (le_max_right _ _) (le_max_right _ _)
  have h4 : mn ≤ rn := min_le_left _ _
  have h5 : mn ≤ gn := le_trans (min_le_right _ _) (min_le_left _ _)
  have h6 : mn ≤ bn := le_trans (min_le_right _ _) (min_le_right _ _)
  split_ifs with hd hr hglt hg hb
  · have hdpos : 0 < mx - mn := lt_of_le_of_ne (by linarith) (Ne.symm hd)
    have e1 : (gn - bn) / (mx - mn) ≤ 1 := (div_le_one hdpos).mpr (by linarith)
    have e4 : (gn - bn) / (mx - mn) < 0 := div_neg_of_neg_of_pos (by linarith) hdpos
    have e2 : (bn - gn) / (mx - mn) ≤ 1 := (div_le_one hdpos).mpr (by linarith)
    have e3 : (bn - gn) / (mx - mn) = -((gn - bn) / (mx - mn)) := by ring
    exact jsRound_mul360 _ (by linarith) (by linarith)
  · have hdpos : 0 < mx - mn := lt_of_le_of_ne (by linarith) (Ne.symm hd)
    have e1 : (gn - bn) / (mx - mn) ≤ 1 := (div_le_one hdpos).mpr (by linarith)
    have e5 : 0 ≤ (gn - bn) / (mx - mn) := div_nonneg (by linarith) hdpos.le
    exact jsRound_mul360 _ (by linarith) (by linarith)
  · have hdpos : 0 < mx - mn := lt_of_le_of_ne (by linarith) (Ne.symm hd)
    have e1 : (bn - rn) / (mx - mn) ≤ 1 := (div_le_one hdpos).mpr (by linarith)
    have e2 : (rn - bn) / (mx - mn) ≤ 1 := (div_le_one hdpos).mpr (by linarith)
    have e3 : (rn - bn) / (mx - mn) = -((bn - rn) / (mx - mn)) := by ring
    exact jsRound_mul360 _ (by linarith) (by linarith)
  · have hdpos : 0 < mx - mn := lt_of_le_of_ne (by linarith) (Ne.symm hd)
    have e1 : (rn - gn) / (mx - mn) ≤ 1 := (div_le_one hdpos).mpr (by linarith)
    have e2 : (gn - rn) / (mx - mn) ≤ 1 := (div_le_one hdpos).mpr (by linarith)
    have e3 : (gn - rn) / (mx - mn) = -((rn - gn) / (mx - mn)) := by ring
    exact jsRound_mul360 _ (by linarith) (by linarith)
  · exact jsRound_mul360 (0 / 6) (by norm_num) (by norm_num)
  · exact jsRound_mul360 0 le_rfl (by norm_num)

end ColorsLE

namespace ColorsLE

/-! ## Claim C1 -/

/-- C1: for every 6-digit lowercase hex string of the form `#rrggbb`, the
utility `parseColor` returns an RGB record with integer channels in
`[0, 255]` and no alpha, and `rgbToHex` of that record is exactly the input
string. -/
theorem C1_hex_roundtrip (c1 c2 c3 c4 c5 c6 : Char)
    (h1 : c1 ∈ lowerHexDigits) (h2 : c2 ∈ lowerHexDigits) (h3 : c3 ∈ lowerHexDigits)
    (h4 : c4 ∈ lowerHexDigits) (h5 : c5 ∈ lowerHexDigits) (h6 : c6 ∈ lowerHexDigits) :
    ∃ rgb : RgbColor,
      parseColor (String.mk ['#', c1, c2, c3, c4, c5, c6]) = some rgb ∧
      rgb.a = none ∧
      (∃ rn gn bn : ℕ, rn ≤ 255 ∧ gn ≤ 255 ∧ bn ≤ 255 ∧
        rgb.r = rn ∧ rgb.g = gn ∧ rgb.b = bn) ∧
      rgbToHex rgb = String.mk ['#', c1, c2, c3, c4, c5, c6] := by
  obtain ⟨e1, v1lt, hc1, s1⟩ := mem_lowerHex_facts c1 h1
  obtain ⟨e2, v2lt, hc2, s2⟩ := mem_lowerHex_facts c2 h2
  obtain ⟨e3, v3lt, hc3, s3⟩ := mem_lowerHex_facts c3 h3
  obtain ⟨e4, v4lt, hc4, s4⟩ := mem_lowerHex_facts c4 h4
  obtain ⟨e5, v5lt, hc5, s5⟩ := mem_lowerHex_facts c5 h5
  obtain ⟨e6, v6lt, hc6, s6⟩ := mem_lowerHex_facts c6 h6
  set v1 := (hexVal c1).getD 0
  set v2 := (hexVal c2).getD 0
  set v3 := (hexVal c3).getD 0
  set v4 := (hexVal c4).getD 0
  set v5 := (hexVal c5).getD 0
  set v6 := (hexVal c6).getD 0
  have htrim : trimL ['#', c1, c2, c3, c4, c5, c6] = ['#', c1, c2, c3, c4, c5, c6] := by
    apply trimL_eq_self
    intro c hc
    simp only [List.mem_cons, List.not_mem_nil, or_false] at hc
    rcases hc with rfl | rfl | rfl | rfl | rfl | rfl | rfl
    · rfl
    · exact s1
    · exact s2
    · exact s3
    · exact s4
    · exact s5
    · exact s6
  refine ⟨⟨((16 * v1 + v2 : ℕ) : ℚ), ((16 * v3 + v4 : ℕ) : ℚ), ((16 * v5 + v6 : ℕ) : ℚ), none⟩,
    ?_, rfl, ⟨16 * v1 + v2, 16 * v3 + v4, 16 * v5 + v6, by omega, by omega, by omega,
      rfl, rfl, rfl⟩, ?_⟩
  · rw [parseColor]
    show parseColorL ['#', c1, c2, c3, c4, c5, c6] = _
    rw [parseColorL, htrim]
    rw [if_pos (by rfl : startsWithL ['#'] ['#', c1, c2, c3, c4, c5, c6] = true)]
    rw [parseHex]
    have hrep : replaceFirstHash ['#', c1, c2, c3, c4, c5, c6] = [c1, c2, c3, c4, c5, c6] := rfl
    rw [hrep]
    rw [if_neg (by simp : ¬ ([c1, c2, c3, c4, c5, c6] : List Char).length = 3)]
    rw [if_pos (by simp : ([c1, c2, c3, c4, c5, c6] : List Char).length = 6)]
    rw [show List.take 2 [c1, c2, c3, c4, c5, c6] = [c1, c2] from rfl]
    rw [show List.take 2 (List.drop 2 [c1, c2, c3, c4, c5, c6]) = [c3, c4] from rfl]
    rw [show List.take 2 (List.drop 4 [c1, c2, c3, c4, c5, c6]) = [c5, c6] from rfl]
    rw [jsParseIntHex_pair c1 h1 c2 h2, jsParseIntHex_pair c3 h3 c4 h4,
      jsParseIntHex_pair c5 h5 c6 h6]
  · rw [rgbToHex]
    show String.mk (rgbToHexL _) = _
    rw [rgbToHexL]
    show String.mk ('#' :: (toHexChannel ((16 * v1 + v2 : ℕ) : ℚ) ++
      toHexChannel ((16 * v3 + v4 : ℕ) : ℚ) ++ toHexChannel ((16 * v5 + v6 : ℕ) : ℚ))) = _
    rw [toHexChannel_nat _ (by omega), toHexChannel_nat _ (by omega),
      toHexChannel_nat _ (by omega)]
    have d1 : (16 * v1 + v2) / 16 = v1 := by omega
    have m1 : (16 * v1 + v2) % 16 = v2 := by omega
    have d2 : (16 * v3 + v4) / 16 = v3 := by omega
    have m2 : (16 * v3 + v4) % 16 = v4 := by omega
    have d3 : (16 * v5 + v6) / 16 = v5 := by omega
    have m3 : (16 * v5 + v6) % 16 = v6 := by omega
    rw [d1, m1, d2, m2, d3, m3, hc1, hc2, hc3, hc4, hc5, hc6]
    rfl

/-- Witness for C1 at the concrete input `#ff0066`. -/
theorem C1_hex_roundtrip_witness : ∃ rgb : RgbColor,
    parseColor (String.mk ['#', 'f', 'f', '0', '0', '6', '6']) = some rgb ∧
    rgb.a = none ∧
    (∃ rn gn bn : ℕ, rn ≤ 255 ∧ gn ≤ 255 ∧ bn ≤ 255 ∧
      rgb.r = rn ∧ rgb.g = gn ∧ rgb.b = bn) ∧
    rgbToHex rgb = String.mk ['#', 'f', 'f', '0', '0', '6', '6'] :=
  C1_hex_roundtrip 'f' 'f' '0' '0' '6' '6' (by decide) (by decide) (by decide) (by decide)
    (by decide) (by decide)

/-! ## Claim C2 -/

/-- C2 (amended): for every RGB input with integer channels in `[0, 255]`,
both `rgbToHsl` implementations return a hue with `0 ≤ h ≤ 360`; the value
360 itself can be produced (see the counterexample), so the claimed strict
upper bound `h < 360` does not hold. -/
theorem C2_hue_range_amended :
    (∀ (r g b : ℕ) (a : Option ℚ), r ≤ 255 → g ≤ 255 → b ≤ 255 →
      0 ≤ (rgbToHsl ⟨(r : ℚ), (g : ℚ), (b : ℚ), a⟩).h ∧
        (rgbToHsl ⟨(r : ℚ), (g : ℚ), (b : ℚ), a⟩).h ≤ 360) ∧
    (∀ (r g b : ℕ) (a : Option ℚ), r ≤ 255 → g ≤ 255 → b ≤ 255 →
      0 ≤ (Converter.rgbToHsl ⟨(r : ℚ), (g : ℚ), (b : ℚ), a⟩).h ∧
        (Converter.rgbToHsl ⟨(r : ℚ), (g : ℚ), (b : ℚ), a⟩).h ≤ 360) :=
  ⟨fun _ _ _ _ _ _ _ => rgbToHsl_h_bounds _, fun _ _ _ _ _ _ _ => conv_rgbToHsl_h_bounds _⟩

/-- Witness for C2 at `rgb(255, 0, 1)`. -/
theorem C2_hue_range_amended_witness :
    (0 ≤ (rgbToHsl ⟨(255 : ℕ), (0 : ℕ), (1 : ℕ), none⟩).h ∧
      (rgbToHsl ⟨(255 : ℕ), (0 : ℕ), (1 : ℕ), none⟩).h ≤ 360) ∧
    (0 ≤ (Converter.rgbToHsl ⟨(255 : ℕ), (0 : ℕ), (1 : ℕ), none⟩).h ∧
      (Converter.rgbToHsl ⟨(255 : ℕ), (0 : ℕ), (1 : ℕ), none⟩).h ≤ 360) :=
  ⟨C2_hue_range_amended.1 255 0 1 none (by norm_num) (by norm_num) (by norm_num),
   C2_hue_range_amended.2 255 0 1 none (by norm_num) (by norm_num) (by norm_num)⟩

/-- Counterexample to C2 as stated: `rgb(255, 0, 1)` has integer channels
in range, yet both `rgbToHsl` implementations return hue exactly 360. -/
theorem C2_hue_360_counterexample :
    (rgbToHsl ⟨255, 0, 1, none⟩).h = 360 ∧ ¬ ((rgbToHsl ⟨255, 0, 1, none⟩).h < 360) ∧
    (Converter.rgbToHsl ⟨255, 0, 1, none⟩).h = 360 ∧
    ¬ ((Converter.rgbToHsl ⟨255, 0, 1, none⟩).h < 360) := by
  have h1 : (rgbToHsl ⟨255, 0, 1, none⟩).h = 360 := by
    rw [rgbToHsl]
    norm_num [max_def, min_def, jsRound]
  have h2 : (Converter.rgbToHsl ⟨255, 0, 1, none⟩).h = 360 := by
    rw [Converter.rgbToHsl]
    norm_num [max_def, min_def, jsRound]
  exact ⟨h1, by rw [h1]; norm_num, h2, by rw [h2]; norm_num⟩

/-! ## Claim C3 -/

/-- C3 (amended): the utility `rgbToHex` never appends an alpha suffix when
alpha is exactly 1, and the converter's `rgbToHex` agrees whenever
`preserveAlpha` is not truthy; with `preserveAlpha` set, however, the
converter appends the suffix even for alpha = 1 (see the counterexample),
so "regardless of serialization options" fails. -/
theorem C3_alpha_one_amended :
    (∀ r g b : ℚ, rgbToHex ⟨r, g, b, some 1⟩ = rgbToHex ⟨r, g, b, none⟩) ∧
    (∀ (rgb : Converter.ColorSpace) (opts : Converter.ColorConversionOptions),
      Converter.truthy opts.preserveAlpha = false →
      Converter.rgbToHex ⟨rgb.r, rgb.g, rgb.b, some 1⟩ opts =
        Converter.rgbToHex ⟨rgb.r, rgb.g, rgb.b, none⟩ opts) := by
  constructor
  · intro r g b
    rw [rgbToHex, rgbToHex]
    simp [rgbToHexL]
  · intro rgb opts hp
    rw [Converter.rgbToHex, Converter.rgbToHex]
    simp [Converter.rgbToHexL, hp]

/-- Witness for C3 at black with alpha 1 and hex target options. -/
theorem C3_alpha_one_amended_witness :
    rgbToHex ⟨0, 0, 0, some 1⟩ = rgbToHex ⟨0, 0, 0, none⟩ ∧
    Converter.rgbToHex ⟨(0 : ℚ), 0, 0, some 1⟩ ⟨.hex, none, none, none, none⟩ =
      Converter.rgbToHex ⟨(0 : ℚ), 0, 0, none⟩ ⟨.hex, none, none, none, none⟩ :=
  ⟨C3_alpha_one_amended.1 0 0 0,
   C3_alpha_one_amended.2 ⟨0, 0, 0, none⟩ ⟨.hex, none, none, none, none⟩ (by rfl)⟩

/-- Counterexample to C3 as stated: with `preserveAlpha` set, the
converter's `rgbToHex` appends `ff` for an explicitly opaque alpha of
exactly 1. -/
theorem C3_preserveAlpha_counterexample :
    Converter.rgbToHex ⟨0, 0, 0, some 1⟩ ⟨.hex, some true, none, none, none⟩ = "#000000ff" ∧
    Converter.rgbToHex ⟨0, 0, 0, none⟩ ⟨.hex, some true, none, none, none⟩ = "#000000" ∧
    Converter.rgbToHex ⟨0, 0, 0, some 1⟩ ⟨.hex, some true, none, none, none⟩ ≠
      Converter.rgbToHex ⟨0, 0, 0, none⟩ ⟨.hex, some true, none, none, none⟩ := by
  have h0 : Converter.toHexClamped 0 = ['0', '0'] := by
    rw [Converter.toHexClamped]
    norm_num [min_def, max_def, jsRound]
    rfl
  have h255 : Converter.toHexClamped (1 * 255) = ['f', 'f'] := by
    rw [Converter.toHexClamped]
    norm_num [min_def, max_def, jsRound]
    rfl
  have e1 : Converter.rgbToHex ⟨0, 0, 0, some 1⟩ ⟨.hex, some true, none, none, none⟩ =
      "#000000ff" := by
    rw [Converter.rgbToHex, Converter.rgbToHexL]
    simp only [Converter.truthy, h0, h255]
    rfl
  have e2 : Converter.rgbToHex ⟨0, 0, 0, none⟩ ⟨.hex, some true, none, none, none⟩ =
      "#000000" := by
    rw [Converter.rgbToHex, Converter.rgbToHexL]
    simp only [Converter.truthy, h0]
    rfl
  exact ⟨e1, e2, by rw [e1, e2]; decide⟩

/-! ## Claim C4 -/

/-- C4: when the converter's parser rejects the value, `convertColor`
returns `success = false`, the error string naming the original value, and
`converted` identical to the original value — for every options value and
every clock reading.  The function is total by construction (the only
`throw` in the source sits in the `switch` default arm, unreachable for the
closed `targetFormat` union), so no exception path exists. -/
theorem C4_convert_unparseable (c : Color) (opts : Converter.ColorConversionOptions)
    (now : ℤ) (h : Converter.parseColorToRGB c.value = none) :
    (Converter.convertColor c opts now).success = false ∧
    (Converter.convertColor c opts now).error =
      some ("Unable to parse color: " ++ c.value) ∧
    (Converter.convertColor c opts now).converted = c.value := by
  simp [Converter.convertColor, h]

/-- Witness for C4 at the unparseable value `zzz`. -/
theorem C4_convert_unparseable_witness :
    (Converter.convertColor ⟨"zzz", .unknown, none, none⟩
        ⟨.hex, none, none, none, none⟩ 0).success = false ∧
    (Converter.convertColor ⟨"zzz", .unknown, none, none⟩
        ⟨.hex, none, none, none, none⟩ 0).error = some ("Unable to parse color: " ++ "zzz") ∧
    (Converter.convertColor ⟨"zzz", .unknown, none, none⟩
        ⟨.hex, none, none, none, none⟩ 0).converted = "zzz" :=
  C4_convert_unparseable ⟨"zzz", .unknown, none, none⟩ ⟨.hex, none, none, none, none⟩ 0
    (by decide)

/-! ## Claim C5 -/

lemma css_addColor_mem (n : ℕ) (line : List Char) (m : ℕ × ℕ) (c : Color)
    (h : c ∈ Css.addColor n line m) :
    c.position = some ⟨n + 1, m.1 + 1⟩ ∧ Css.isInComment line m.1 = false := by
  rw [Css.addColor] at h
  by_cases hc : Css.isInComment line m.1
  · simp [hc] at h
  · simp [hc] at h
    subst h
    simp [eq_false_of_ne_true hc]

lemma css_lineColors_mem (n : ℕ) (line : List Char) (c : Color)
    (h : c ∈ Css.lineColors n line) :
    ∃ i, c.position = some ⟨n + 1, i + 1⟩ ∧ Css.isInComment line i = false := by
  rw [Css.lineColors] at h
  rw [List.mem_flatMap] at h
  obtain ⟨m, _, hmem⟩ := h
  exact ⟨m.1, css_addColor_mem n line m c hmem⟩

lemma css_extractAux_mem (k : ℕ) (lines : List (List Char)) (c : Color)
    (h : c ∈ Css.extractAux k lines) :
    ∃ j i, c.position = some ⟨k + j + 1, i + 1⟩ ∧
      Css.isInComment (lines.getD j []) i = false := by
  induction lines generalizing k with
  | nil => simp [Css.extractAux] at h
  | cons line rest ih =>
    rw [Css.extractAux, List.mem_append] at h
    rcases h with h | h
    · obtain ⟨i, hp, hcomm⟩ := css_lineColors_mem k line c h
      exact ⟨0, i, by simpa using hp, by simpa using hcomm⟩
    · obtain ⟨j, i, hp, hcomm⟩ := ih (k + 1) h
      refine ⟨j + 1, i, ?_, by simpa using hcomm⟩
      have he : k + 1 + j + 1 = k + (j + 1) + 1 := by omega
      rw [← he]
      exact hp

/-- C5: every color emitted by `extractFromCss` carries a 1-based position
whose 0-based match index is outside any `/* ... */` span of its line (in
the `isInComment` sense), and on the spec's example only `#ff0000` is
extracted. -/
theorem C5_css_comment_suppression :
    (∀ (content : String) (c : Color), c ∈ Css.extractFromCss content →
      ∃ ln i, c.position = some ⟨ln + 1, i + 1⟩ ∧
        Css.isInComment ((splitOnNl content.data).getD ln []) i = false) ∧
    Css.extractFromCss ".c\x7bcolor:#ff0000\x7d/* #00ff00 */" =
      [⟨"#ff0000", .hex, some ⟨1, 10⟩, some ".c\x7bcolor:#ff0000\x7d/* #00ff00 */"⟩] := by
  constructor
  · intro content c h
    obtain ⟨j, i, hp, hcomm⟩ := css_extractAux_mem 0 (splitOnNl content.data) c h
    exact ⟨j, i, by simpa using hp, hcomm⟩
  · decide

/-- Witness for C5 on the spec's example document. -/
theorem C5_css_comment_suppression_witness :
    ∃ ln i,
      (⟨"#ff0000", .hex, some ⟨1, 10⟩,
        some ".c\x7bcolor:#ff0000\x7d/* #00ff00 */"⟩ : Color).position = some ⟨ln + 1, i + 1⟩ ∧
      Css.isInComment ((splitOnNl (".c\x7bcolor:#ff0000\x7d/* #00ff00 */" : String).data).getD ln [])
        i = false :=
  C5_css_comment_suppression.1 ".c\x7bcolor:#ff0000\x7d/* #00ff00 */" _ (by decide)

/-! ## Claim C6 -/

lemma js_isStyleContext_comment (line : List Char) (i : ℕ)
    (h : containsSub ['/', '/'] (line.take i) = true) : Js.isStyleContext line i = false := by
  rw [Js.isStyleContext]
  simp [h]

lemma js_isStyleContext_evidence (line : List Char) (i : ℕ)
    (h : Js.isStyleContext line i = true) :
    Js.hasStyleKeyword line = true ∨ Js.hasCssInJs line = true ∨
      (Js.objectPatternTest (line.take i) = true ∧ Js.stylePropertyTest line = true) ∨
      Js.styleVarTest line = true ∨ Js.themeContextTest line = true := by
  rw [Js.isStyleContext] at h
  split_ifs at h with h1 h2 h3 h4 h5 h6 h7 h8
  · exact Or.inl h4
  · exact Or.inr (Or.inl h5)
  · rw [Bool.and_eq_true] at h6
    exact Or.inr (Or.inr (Or.inl h6))
  · exact Or.inr (Or.inr (Or.inr (Or.inl h7)))
  · exact Or.inr (Or.inr (Or.inr (Or.inr h8)))

lemma js_upsert_mem (k : String × ℕ) (v c : Color) (l : List ((String × ℕ) × Color))
    (h : c ∈ (Js.upsert k v l).map (fun p => p.2)) :
    c = v ∨ c ∈ l.map (fun p => p.2) := by
  induction l with
  | nil => simp [Js.upsert] at h; exact Or.inl h
  | cons p t ih =>
    rw [Js.upsert] at h
    by_cases hk : p.1 = k
    · rw [if_pos hk] at h
      simp at h
      rcases h with h | h
      · exact Or.inl h
      · exact Or.inr (by simp [h])
    · rw [if_neg hk] at h
      simp at h
      rcases h with h | h
      · exact Or.inr (by simp [h])
      · rcases ih (by simpa using h) with h2 | h2
        · exact Or.inl h2
        · exact Or.inr (by simp at h2 ⊢; exact Or.inr h2)

lemma js_dedup_foldl_mem (colors : List Color) (acc : List ((String × ℕ) × Color)) (c : Color)
    (h : c ∈ (colors.foldl (fun a x => Js.upsert (Js.dedupKey x) x a) acc).map (fun p => p.2)) :
    c ∈ acc.map (fun p => p.2) ∨ c ∈ colors := by
  induction colors generalizing acc with
  | nil => simp at h; exact Or.inl (by simpa using h)
  | cons x t ih =>
    rw [List.foldl_cons] at h
    rcases ih (Js.upsert (Js.dedupKey x) x acc) h with h2 | h2
    · rcases js_upsert_mem _ _ _ _ h2 with h3 | h3
      · exact Or.inr (by simp [h3])
      · exact Or.inl h3
    · exact Or.inr (List.mem_cons_of_mem _ h2)

lemma js_dedup_mem (colors : List Color) (c : Color) (h : c ∈ Js.dedupByValueLine colors) :
    c ∈ colors := by
  rw [Js.dedupByValueLine] at h
  rcases js_dedup_foldl_mem colors [] c h with h2 | h2
  · simp at h2
  · exact h2

lemma js_lineColors_mem (n : ℕ) (line : List Char) (c : Color)
    (h : c ∈ Js.lineColors n line) : ∃ i, Js.isStyleContext line i = true := by
  rw [Js.lineColors, List.mem_append] at h
  rcases h with h | h
  · rw [List.mem_flatMap] at h
    obtain ⟨m, _, hmem⟩ := h
    rw [Js.tokenColor] at hmem
    by_cases hg : Js.isStyleContext line m.1
    · exact ⟨m.1, hg⟩
    · simp [hg] at hmem
  · rw [List.mem_flatMap] at h
    obtain ⟨m, _, hmem⟩ := h
    rw [Js.stringColor] at hmem
    split_ifs at hmem with hg
    · exact ⟨m.1, hg.2.2⟩
    · simp at hmem

lemma js_extractAux_mem (k : ℕ) (lines : List (List Char)) (c : Color)
    (h : c ∈ Js.extractAux k lines) :
    ∃ j i, Js.isStyleContext (lines.getD j []) i = true := by
  induction lines generalizing k with
  | nil => simp [Js.extractAux] at h
  | cons line rest ih =>
    rw [Js.extractAux, List.mem_append] at h
    rcases h with h | h
    · obtain ⟨i, hi⟩ := js_lineColors_mem k line c h
      exact ⟨0, i, by simpa using hi⟩
    · obtain ⟨j, i, hi⟩ := ih (k + 1) h
      exact ⟨j + 1, i, by simpa using hi⟩

/-- C6: the URL example yields no colors; a token preceded on its line by
`//` is rejected; and every emitted color comes from a position where
`isStyleContext` held, which requires style-keyword, CSS-in-JS,
style-object, style-variable, or theme-context evidence on the line. -/
theorem C6_js_nonstyle_suppression :
    Js.extractFromJavaScript "const url='https://x/#ff0000';" = [] ∧
    (∀ (line : List Char) (i : ℕ),
      containsSub ['/', '/'] (line.take i) = true → Js.isStyleContext line i = false) ∧
    (∀ (content : String) (c : Color), c ∈ Js.extractFromJavaScript content →
      ∃ j i,
        Js.isStyleContext ((splitOnNl content.data).getD j []) i = true ∧
        (Js.hasStyleKeyword ((splitOnNl content.data).getD j []) = true ∨
          Js.hasCssInJs ((splitOnNl content.data).getD j []) = true ∨
          (Js.objectPatternTest (((splitOnNl content.data).getD j []).take i) = true ∧
            Js.stylePropertyTest ((splitOnNl content.data).getD j []) = true) ∨
          Js.styleVarTest ((splitOnNl content.data).getD j []) = true ∨
          Js.themeContextTest ((splitOnNl content.data).getD j []) = true)) := by
  refine ⟨by decide, js_isStyleContext_comment, ?_⟩
  intro content c h
  obtain ⟨j, i, hi⟩ := js_extractAux_mem 0 (splitOnNl content.data) c (js_dedup_mem _ c h)
  exact ⟨j, i, hi, js_isStyleContext_evidence _ _ hi⟩

/-- Witness for C6 on a style-object line that does emit a color. -/
theorem C6_js_nonstyle_suppression_witness :
    Js.isStyleContext ['/', '/', 'x'] 3 = false ∧
    (∃ j i,
      Js.isStyleContext
        ((splitOnNl ("const colors = \x7b main: '#00ff00' \x7d;" : String).data).getD j []) i = true ∧
      (Js.hasStyleKeyword
          ((splitOnNl ("const colors = \x7b main: '#00ff00' \x7d;" : String).data).getD j []) = true ∨
        Js.hasCssInJs
          ((splitOnNl ("const colors = \x7b main: '#00ff00' \x7d;" : String).data).getD j []) = true ∨
        (Js.objectPatternTest
            ((((splitOnNl ("const colors = \x7b main: '#00ff00' \x7d;" : String).data)).getD j
              []).take i) = true ∧
          Js.stylePropertyTest
            ((splitOnNl ("const colors = \x7b main: '#00ff00' \x7d;" : String).data).getD j
              []) = true) ∨
        Js.styleVarTest
          ((splitOnNl ("const colors = \x7b main: '#00ff00' \x7d;" : String).data).getD j []) = true ∨
        Js.themeContextTest
          ((splitOnNl ("const colors = \x7b main: '#00ff00' \x7d;" : String).data).getD j
            []) = true)) :=
  ⟨C6_js_nonstyle_suppression.2.1 ['/', '/', 'x'] 3 (by decide),
   C6_js_nonstyle_suppression.2.2 "const colors = \x7b main: '#00ff00' \x7d;"
    ⟨"#00ff00", .hex, some ⟨1, 24⟩, some "const colors = \x7b main: '#00ff00' \x7d;"⟩ (by decide)⟩

/-! ## Claim C7 -/

/-- C7 (exhibiting the code bug): on the one-line Stylus document `#fff`
the extractor emits a color whose `position.column` is the raw 0-based
match index 0 — violating the claimed `column ≥ 1` invariant (the sibling
extractors all add 1; `stylus.ts` line 55 omits the `+ 1`). -/
theorem C7_stylus_column_zero :
    Stylus.extractFromStylus "#fff" =
      [⟨"#fff", .hex, some ⟨1, 0⟩, some "Stylus declaration"⟩] ∧
    ∃ c ∈ Stylus.extractFromStylus "#fff", ∃ p : Pos, c.position = some p ∧ ¬ (1 ≤ p.column) :=
  ⟨by decide,
   ⟨⟨"#fff", .hex, some ⟨1, 0⟩, some "Stylus declaration"⟩, by decide, ⟨1, 0⟩, rfl, by decide⟩⟩

/-! ## Claim C8 -/

lemma listMax_pair (a b : ℤ) : Analyzer.listMax [a, b] = max a b := rfl

lemma listMin_pair (a b : ℤ) : Analyzer.listMin [a, b] = min a b := rfl

lemma max_sub_min_eq_abs (a b : ℤ) : max a b - min a b = |a - b| := by
  rcases le_total a b with h | h
  · have h1 := max_eq_right h
    have h2 := min_eq_left h
    have h3 : |a - b| = -(a - b) := abs_of_nonpos (by omega)
    omega
  · have h1 := max_eq_left h
    have h2 := min_eq_right h
    have h3 : |a - b| = a - b := abs_of_nonneg (by omega)
    omega

/-- C8: `detectColorHarmony` (i) returns `none` for fewer than 2 colors or
fewer than 2 HSL-parseable colors, (ii) returns `monochromatic` with
confidence 0.8 when the parseable hue range is below 30, (iii) returns
`complementary` with confidence 0.9 for exactly two parseable colors whose
hue difference lies in (150, 210), and (iv) otherwise returns `none` with
confidence 0.3. -/
theorem C8_harmony_branches :
    (∀ cs : List String,
      cs.length < 2 ∨ (cs.filterMap Analyzer.parseColorToHSLStr).length < 2 →
      (Analyzer.detectColorHarmony cs).type = .none) ∧
    (∀ cs : List String, 2 ≤ cs.length →
      2 ≤ (cs.filterMap Analyzer.parseColorToHSLStr).length →
      Analyzer.listMax ((cs.filterMap Analyzer.parseColorToHSLStr).map (fun hsl => hsl.h)) -
        Analyzer.listMin ((cs.filterMap Analyzer.parseColorToHSLStr).map (fun hsl => hsl.h)) < 30 →
      (Analyzer.detectColorHarmony cs).type = .monochromatic ∧
      (Analyzer.detectColorHarmony cs).confidence = 0.8) ∧
    (∀ (cs : List String) (p q : Analyzer.HSLTriple), 2 ≤ cs.length →
      cs.filterMap Analyzer.parseColorToHSLStr = [p, q] →
      150 < |p.h - q.h| → |p.h - q.h| < 210 →
      (Analyzer.detectColorHarmony cs).type = .complementary ∧
      (Analyzer.detectColorHarmony cs).confidence = 0.9) ∧
    (∀ cs : List String, 2 ≤ cs.length →
      2 ≤ (cs.filterMap Analyzer.parseColorToHSLStr).length →
      ¬ (Analyzer.listMax ((cs.filterMap Analyzer.parseColorToHSLStr).map (fun hsl => hsl.h)) -
          Analyzer.listMin ((cs.filterMap Analyzer.parseColorToHSLStr).map (fun hsl => hsl.h)) <
          30) →
      ((cs.filterMap Analyzer.parseColorToHSLStr).length = 2 →
        ¬ (150 < |((cs.filterMap Analyzer.parseColorToHSLStr).map (fun hsl => hsl.h)).getD 0 0 -
              ((cs.filterMap Analyzer.parseColorToHSLStr).map (fun hsl => hsl.h)).getD 1 0| ∧
           |((cs.filterMap Analyzer.parseColorToHSLStr).map (fun hsl => hsl.h)).getD 0 0 -
              ((cs.filterMap Analyzer.parseColorToHSLStr).map (fun hsl => hsl.h)).getD 1 0| <
              210)) →
      (Analyzer.detectColorHarmony cs).type = .none ∧
      (Analyzer.detectColorHarmony cs).confidence = 0.3) := by
  refine ⟨?_, ?_, ?_, ?_⟩
  · intro cs h
    rw [Analyzer.detectColorHarmony]
    by_cases hlen : cs.length < 2
    · rw [if_pos hlen]
    · rcases h with h | h
      · exact absurd h hlen
      · rw [if_neg hlen, if_pos h]
  · intro cs h1 h2 h3
    rw [Analyzer.detectColorHarmony, if_neg (by omega), if_neg (by omega), if_pos h3]
    exact ⟨rfl, rfl⟩
  · intro cs p q hlen hfm h150 h210
    rw [Analyzer.detectColorHarmony, if_neg (by omega), if_neg (by rw [hfm]; simp), hfm]
    have hrange : ¬ (Analyzer.listMax (([p, q] : List Analyzer.HSLTriple).map (fun hsl => hsl.h)) -
        Analyzer.listMin (([p, q] : List Analyzer.HSLTriple).map (fun hsl => hsl.h)) < 30) := by
      simp only [List.map_cons, List.map_nil, listMax_pair, listMin_pair, max_sub_min_eq_abs]
      omega
    rw [if_neg hrange, if_pos (show ([p, q] : List Analyzer.HSLTriple).length = 2 from rfl)]
    have hd : ((([p, q] : List Analyzer.HSLTriple).map (fun hsl => hsl.h)).getD 0 0) = p.h := rfl
    have hd2 : ((([p, q] : List Analyzer.HSLTriple).map (fun hsl => hsl.h)).getD 1 0) = q.h := rfl
    rw [if_pos (by rw [hd, hd2, abs_lt]; omega)]
    exact ⟨rfl, rfl⟩
  · intro cs h1 h2 h3 h4
    rw [Analyzer.detectColorHarmony, if_neg (by omega), if_neg (by omega), if_neg h3]
    by_cases hl2 : (cs.filterMap Analyzer.parseColorToHSLStr).length = 2
    · rw [if_pos hl2]
      have h5 := h4 hl2
      rw [if_neg (by rw [abs_lt]; omega)]
      exact ⟨rfl, rfl⟩
    · rw [if_neg hl2]
      exact ⟨rfl, rfl⟩

lemma parse_hex_ff0000 : Analyzer.parseColorToHSLStr "#ff0000" = some ⟨0, 100, 50⟩ := by
  have h1 : Analyzer.parseColorToHSLStr "#ff0000" = some (Analyzer.hexToHSLCore 255 0 0) := rfl
  rw [h1]
  congr 1
  rw [Analyzer.hexToHSLCore]
  norm_num [max_def, min_def, jsRound, Analyzer.HSLTriple.mk.injEq]

lemma parse_hex_00ffff : Analyzer.parseColorToHSLStr "#00ffff" = some ⟨180, 100, 50⟩ := by
  have h1 : Analyzer.parseColorToHSLStr "#00ffff" = some (Analyzer.hexToHSLCore 0 255 255) := rfl
  rw [h1]
  congr 1
  rw [Analyzer.hexToHSLCore]
  norm_num [max_def, min_def, jsRound, Analyzer.HSLTriple.mk.injEq]

/-- Witness for C8: a complementary pair, and a single color giving
`none`. -/
theorem C8_harmony_branches_witness :
    ((Analyzer.detectColorHarmony ["#ff0000", "#00ffff"]).type = .complementary ∧
      (Analyzer.detectColorHarmony ["#ff0000", "#00ffff"]).confidence = 0.9) ∧
    (Analyzer.detectColorHarmony ["#ff0000"]).type = .none := by
  have hfm : (["#ff0000", "#00ffff"] : List String).filterMap Analyzer.parseColorToHSLStr =
      [⟨0, 100, 50⟩, ⟨180, 100, 50⟩] := by
    simp [List.filterMap_cons, parse_hex_ff0000, parse_hex_00ffff]
  constructor
  · exact C8_harmony_branches.2.2.1 ["#ff0000", "#00ffff"] ⟨0, 100, 50⟩ ⟨180, 100, 50⟩
      (by simp) hfm (by decide) (by decide)
  · exact C8_harmony_branches.1 ["#ff0000"] (Or.inl (by simp))

/-! ## Claim C9 -/

/-- C9 (amended): `convertColor` is deterministic in every field except
`timestamp`: two invocations with equal `color` and `options` agree on
`original`, `converted`, `format`, `success` and `error`; the `timestamp`
field records the `Date.now()` clock reading of the invocation and differs
when the clock has advanced (see the counterexample). -/
theorem C9_deterministic_amended (c : Color) (opts : Converter.ColorConversionOptions)
    (t1 t2 : ℤ) :
    (Converter.convertColor c opts t1).original = (Converter.convertColor c opts t2).original ∧
    (Converter.convertColor c opts t1).converted = (Converter.convertColor c opts t2).converted ∧
    (Converter.convertColor c opts t1).format = (Converter.convertColor c opts t2).format ∧
    (Converter.convertColor c opts t1).success = (Converter.convertColor c opts t2).success ∧
    (Converter.convertColor c opts t1).error = (Converter.convertColor c opts t2).error := by
  cases h : Converter.parseColorToRGB c.value <;> simp [Converter.convertColor, h]

/-- Counterexample to C9 as stated: the `timestamp` field of two
invocations with equal arguments differs when `Date.now()` differs. -/
theorem C9_timestamp_counterexample :
    (Converter.convertColor ⟨"#fff", .hex, none, none⟩
        ⟨.hex, none, none, none, none⟩ 0).timestamp ≠
      (Converter.convertColor ⟨"#fff", .hex, none, none⟩
        ⟨.hex, none, none, none, none⟩ 1).timestamp := by
  cases h : Converter.parseColorToRGB "#fff" <;> simp [Converter.convertColor, h]

/-! ## Claim C10 -/

lemma C10a_only_if (s : String) (h : Analyzer.parseColorToHSLStr s ≠ none) :
    (∃ rest, s.data = '#' :: rest ∧ (rest.length = 3 ∨ rest.length = 6) ∧
      rest.all isHexDigit = true) ∨
    (searchM Analyzer.hslLitAt s.data).isSome = true := by
  rw [Analyzer.parseColorToHSLStr] at h
  rcases hd : s.data with _ | ⟨c, rest⟩ <;> rw [hd] at h
  · rw [Analyzer.parseColorToHSL.eq_2 _ (by intro r hr; cases hr)] at h
    rw [if_neg (by simp)] at h
    right
    cases hs : searchM Analyzer.hslLitAt ([] : List Char) <;> rw [hs] at h <;> simp_all
  · by_cases hc : c = '#'
    · subst hc
      rw [Analyzer.parseColorToHSL.eq_1] at h
      by_cases hg : ((rest.length == 3 || rest.length == 6) && rest.all isHexDigit) = true
      · left
        refine ⟨rest, rfl, ?_, ?_⟩
        · rcases Bool.or_eq_true .. |>.mp (Bool.and_eq_true .. |>.mp hg).1 with h2 | h2
          · exact Or.inl (by simpa using h2)
          · exact Or.inr (by simpa using h2)
        · exact (Bool.and_eq_true .. |>.mp hg).2
      · rw [if_neg hg] at h
        right
        cases hs : searchM Analyzer.hslLitAt ('#' :: rest) <;> rw [hs] at h <;> simp_all
    · have hne : ∀ (r : List Char), (c :: rest : List Char) = '#' :: r → False := by
        intro r hr
        rw [List.cons.injEq] at hr
        exact absurd hr.1 hc
      rw [Analyzer.parseColorToHSL.eq_2 _ hne] at h
      rw [if_neg (by simp)] at h
      right
      cases hs : searchM Analyzer.hslLitAt (c :: rest) <;> rw [hs] at h <;> simp_all

lemma C10c_stats (colors : List Color) (c : Color)
    (h : Analyzer.parseColorToHSLStr c.value = none) :
    (Analyzer.calculateColorStatistics (colors ++ [c])).dominantHue =
      (Analyzer.calculateColorStatistics colors).dominantHue ∧
    (Analyzer.calculateColorStatistics (colors ++ [c])).averageSaturation =
      (Analyzer.calculateColorStatistics colors).averageSaturation ∧
    (Analyzer.calculateColorStatistics (colors ++ [c])).averageLightness =
      (Analyzer.calculateColorStatistics colors).averageLightness := by
  have hfm : (colors ++ [c]).filterMap (fun cc => Analyzer.parseColorToHSLStr cc.value) =
      colors.filterMap (fun cc => Analyzer.parseColorToHSLStr cc.value) := by
    simp [List.filterMap_append, h]
  rcases colors with _ | ⟨x, t⟩
  · simp [Analyzer.calculateColorStatistics, h]
  · rw [Analyzer.calculateColorStatistics, Analyzer.calculateColorStatistics]
    rw [if_neg (by simp), if_neg (by simp)]
    rw [hfm]
    exact ⟨rfl, rfl, rfl⟩

lemma C10d_harmony (vs : List String) (v : String)
    (h : Analyzer.parseColorToHSLStr v = none) :
    (Analyzer.detectColorHarmony (vs ++ [v])).type = (Analyzer.detectColorHarmony vs).type ∧
    (Analyzer.detectColorHarmony (vs ++ [v])).confidence =
      (Analyzer.detectColorHarmony vs).confidence := by
  have hfm : (vs ++ [v]).filterMap Analyzer.parseColorToHSLStr =
      vs.filterMap Analyzer.parseColorToHSLStr := by
    simp [List.filterMap_append, h]
  by_cases hl : vs.length < 2
  · rcases vs with _ | ⟨a, t⟩
    · simp [Analyzer.detectColorHarmony]
    · rcases t with _ | ⟨b, t2⟩
      · have hlen : (([a] ++ [v]).filterMap Analyzer.parseColorToHSLStr).length < 2 := by
          rw [hfm]
          have hle := List.length_filterMap_le Analyzer.parseColorToHSLStr [a]
          simp only [List.length_cons, List.length_nil] at hle
          omega
        rw [Analyzer.detectColorHarmony, Analyzer.detectColorHarmony]
        rw [if_neg (show ¬ (([a] ++ [v] : List String).length < 2) by simp)]
        rw [if_pos (show ([a] : List String).length < 2 by simp)]
        rw [if_pos hlen]
        exact ⟨rfl, rfl⟩
      · exact absurd hl (by simp)
  · simp only [Analyzer.detectColorHarmony, hfm]
    rw [if_neg (show ¬ ((vs ++ [v]).length < 2) by
      simp only [List.length_append, List.length_cons, List.length_nil]; omega)]
    rw [if_neg hl]
    split_ifs <;> exact ⟨rfl, rfl⟩

lemma nubAux_append_single {α : Type} [BEq α] (xs : List α) (x : α) :
    ∀ seen, Analyzer.nubAux (xs ++ [x]) seen = Analyzer.nubAux xs seen ∨
      Analyzer.nubAux (xs ++ [x]) seen = Analyzer.nubAux xs seen ++ [x] := by
  induction xs with
  | nil =>
    intro seen
    by_cases h : seen.contains x
    · exact Or.inl (by simp [Analyzer.nubAux, h])
    · exact Or.inr (by simp [Analyzer.nubAux, h])
  | cons y t ih =>
    intro seen
    by_cases h : seen.contains y
    · rcases ih seen with h2 | h2
      · exact Or.inl (by simp [Analyzer.nubAux, h, h2])
      · exact Or.inr (by simp [Analyzer.nubAux, h, h2])
    · rcases ih (y :: seen) with h2 | h2
      · exact Or.inl (by simp [Analyzer.nubAux, h, h2])
      · exact Or.inr (by simp [Analyzer.nubAux, h, h2])

lemma nub_filterMap_append {α β : Type} [BEq α] (f : α → Option β) (xs : List α) (x : α)
    (h : f x = none) :
    (Analyzer.nubKeepFirst (xs ++ [x])).filterMap f =
      (Analyzer.nubKeepFirst xs).filterMap f := by
  rw [Analyzer.nubKeepFirst, Analyzer.nubKeepFirst]
  rcases nubAux_append_single xs x [] with h2 | h2 <;> rw [h2]
  simp [List.filterMap_append, h]

lemma C10e_gaps (colors : List Color) (c : Color)
    (h : Analyzer.parseColorToHSLStr (Analyzer.lowerStr c.value) = none) :
    Analyzer.detectColorGaps (colors ++ [c]) = Analyzer.detectColorGaps colors := by
  rw [Analyzer.detectColorGaps, Analyzer.detectColorGaps]
  have hmap : (colors ++ [c]).map (fun cc => Analyzer.lowerStr cc.value) =
      colors.map (fun cc => Analyzer.lowerStr cc.value) ++ [Analyzer.lowerStr c.value] := by
    simp
  rw [hmap, nub_filterMap_append _ _ _ h]

lemma C10f_temperature (vs : List String) (v : String)
    (h : Analyzer.parseColorToHSLStr v = none) :
    Analyzer.determineTemperature (vs ++ [v]) = Analyzer.determineTemperature vs := by
  rw [Analyzer.determineTemperature, Analyzer.determineTemperature]
  rw [show (vs ++ [v]).filterMap Analyzer.parseColorToHSLStr =
    vs.filterMap Analyzer.parseColorToHSLStr by simp [List.filterMap_append, h]]

lemma C10g_mood (vs : List String) (v : String)
    (h : Analyzer.parseColorToHSLStr v = none) :
    Analyzer.determineMood (vs ++ [v]) = Analyzer.determineMood vs := by
  rw [Analyzer.determineMood, Analyzer.determineMood]
  rw [show (vs ++ [v]).filterMap Analyzer.parseColorToHSLStr =
    vs.filterMap Analyzer.parseColorToHSLStr by simp [List.filterMap_append, h]]

lemma hueBand_colors_mem (hsl : List (String × Analyzer.HSLTriple)) (mn mx : ℤ) (lab : String)
    (cl : Analyzer.ColorCluster) (hcl : cl ∈ Analyzer.hueBand hsl mn mx lab)
    (v : String) (hv : v ∈ cl.colors) : ∃ t, (v, t) ∈ hsl := by
  rw [Analyzer.hueBand] at hcl
  split_ifs at hcl with hr
  · rw [List.mem_singleton] at hcl
    subst hcl
    simp only [List.mem_map] at hv
    obtain ⟨p, hp, hpeq⟩ := hv
    refine ⟨p.2, ?_⟩
    rw [← hpeq]
    exact (List.mem_filter.mp hp).1
  · simp at hcl

lemma C10h_clusters (colors : List Color) (maxClusters : ℕ)
    (h : maxClusters <
      (Analyzer.nubKeepFirst (colors.map (fun c => Analyzer.lowerStr c.value))).length) :
    ∀ cl ∈ Analyzer.clusterColors colors maxClusters, ∀ v ∈ cl.colors,
      Analyzer.parseColorToHSLStr v ≠ none := by
  intro cl hcl v hv
  rw [Analyzer.clusterColors] at hcl
  rw [if_neg (by omega)] at hcl
  rw [Analyzer.clusterBuckets] at hcl
  split_ifs at hcl with hz
  · simp at hcl
  · have hcl2 := List.mem_of_mem_take hcl
    have key : ∀ t : Analyzer.HSLTriple,
        (v, t) ∈ (Analyzer.nubKeepFirst
            (colors.map (fun c => Analyzer.lowerStr c.value))).filterMap
          (fun c => (Analyzer.parseColorToHSLStr c).map (fun hh => (c, hh))) →
        Analyzer.parseColorToHSLStr v ≠ none := by
      intro t hmem
      rw [List.mem_filterMap] at hmem
      obtain ⟨a, _, ha⟩ := hmem
      cases hp : Analyzer.parseColorToHSLStr a <;> rw [hp] at ha
      · simp at ha
      · simp at ha
        rw [← ha.1, hp]
        simp
    simp only [List.mem_append] at hcl2
    rcases hcl2 with ((((((h1 | h1) | h1) | h1) | h1) | h1) | h1) <;>
      · obtain ⟨t, ht⟩ := hueBand_colors_mem _ _ _ _ _ h1 v hv
        exact key t ht

/-- C10 (amended): the analyzer's `parseColorToHSL` accepts a value only
if it is a 3- or 6-digit hex literal or CONTAINS an `hsl(h, s%, l%)`
occurrence anywhere in the string — the hsl regex is unanchored, so being
an hsl literal is not required (see the counterexample); `rgb()`, `rgba()`,
`hsla()`, 8-digit hex, and named keywords are rejected; and rejected
values are excluded from the hue/saturation/lightness statistics, from
harmony type and confidence, from gap detection, temperature and mood,
and from the hue-bucket clusters. -/
theorem C10_parseable_gate :
    (∀ s : String, Analyzer.parseColorToHSLStr s ≠ none →
      (∃ rest, s.data = '#' :: rest ∧ (rest.length = 3 ∨ rest.length = 6) ∧
        rest.all isHexDigit = true) ∨
      (searchM Analyzer.hslLitAt s.data).isSome = true) ∧
    (Analyzer.parseColorToHSLStr "rgb(255, 0, 0)" = none ∧
      Analyzer.parseColorToHSLStr "rgba(255, 0, 0, 0.5)" = none ∧
      Analyzer.parseColorToHSLStr "hsla(120, 50%, 50%, 0.5)" = none ∧
      Analyzer.parseColorToHSLStr "#aabbccdd" = none ∧
      Analyzer.parseColorToHSLStr "red" = none) ∧
    (∀ (colors : List Color) (c : Color), Analyzer.parseColorToHSLStr c.value = none →
      (Analyzer.calculateColorStatistics (colors ++ [c])).dominantHue =
        (Analyzer.calculateColorStatistics colors).dominantHue ∧
      (Analyzer.calculateColorStatistics (colors ++ [c])).averageSaturation =
        (Analyzer.calculateColorStatistics colors).averageSaturation ∧
      (Analyzer.calculateColorStatistics (colors ++ [c])).averageLightness =
        (Analyzer.calculateColorStatistics colors).averageLightness) ∧
    (∀ (vs : List String) (v : String), Analyzer.parseColorToHSLStr v = none →
      (Analyzer.detectColorHarmony (vs ++ [v])).type =
        (Analyzer.detectColorHarmony vs).type ∧
      (Analyzer.detectColorHarmony (vs ++ [v])).confidence =
        (Analyzer.detectColorHarmony vs).confidence) ∧
    (∀ (colors : List Color) (c : Color),
      Analyzer.parseColorToHSLStr (Analyzer.lowerStr c.value) = none →
      Analyzer.detectColorGaps (colors ++ [c]) = Analyzer.detectColorGaps colors) ∧
    (∀ (vs : List String) (v : String), Analyzer.parseColorToHSLStr v = none →
      Analyzer.determineTemperature (vs ++ [v]) = Analyzer.determineTemperature vs) ∧
    (∀ (vs : List String) (v : String), Analyzer.parseColorToHSLStr v = none →
      Analyzer.determineMood (vs ++ [v]) = Analyzer.determineMood vs) ∧
    (∀ (colors : List Color) (maxClusters : ℕ),
      maxClusters <
        (Analyzer.nubKeepFirst (colors.map (fun c => Analyzer.lowerStr c.value))).length →
      ∀ cl ∈ Analyzer.clusterColors colors maxClusters, ∀ v ∈ cl.colors,
        Analyzer.parseColorToHSLStr v ≠ none) :=
  ⟨C10a_only_if, by decide, C10c_stats, C10d_harmony, C10e_gaps, C10f_temperature,
    C10g_mood, C10h_clusters⟩

/-- Witness for C10: the unparseable value `red` leaves statistics,
harmony, gaps, temperature and mood untouched when appended to the empty
palette. -/
theorem C10_parseable_gate_witness :
    ((Analyzer.calculateColorStatistics ([] ++ [⟨"red", .named, none, none⟩])).dominantHue =
      (Analyzer.calculateColorStatistics []).dominantHue ∧
      (Analyzer.calculateColorStatistics
          ([] ++ [⟨"red", .named, none, none⟩])).averageSaturation =
        (Analyzer.calculateColorStatistics []).averageSaturation ∧
      (Analyzer.calculateColorStatistics
          ([] ++ [⟨"red", .named, none, none⟩])).averageLightness =
        (Analyzer.calculateColorStatistics []).averageLightness) ∧
    ((Analyzer.detectColorHarmony ([] ++ ["red"])).type =
      (Analyzer.detectColorHarmony []).type ∧
      (Analyzer.detectColorHarmony ([] ++ ["red"])).confidence =
        (Analyzer.detectColorHarmony []).confidence) ∧
    Analyzer.detectColorGaps ([] ++ [⟨"red", .named, none, none⟩]) =
      Analyzer.detectColorGaps [] ∧
    Analyzer.determineTemperature ([] ++ ["red"]) = Analyzer.determineTemperature [] ∧
    Analyzer.determineMood ([] ++ ["red"]) = Analyzer.determineMood [] :=
  ⟨C10_parseable_gate.2.2.1 [] ⟨"red", .named, none, none⟩ (by decide),
   C10_parseable_gate.2.2.2.1 [] "red" (by decide),
   C10_parseable_gate.2.2.2.2.1 [] ⟨"red", .named, none, none⟩ (by decide),
   C10_parseable_gate.2.2.2.2.2.1 [] "red" (by decide),
   C10_parseable_gate.2.2.2.2.2.2.1 [] "red" (by decide)⟩

/-- Counterexample to C10 as stated: the analyzer's hsl regex is
unanchored, so the value `x hsl(1, 2%, 3%)` is HSL-parseable (it parses
to h=1, s=2, l=3) although it is neither a 3- or 6-digit hex literal (it
does not start with `#`) nor itself an `hsl(h, s%, l%)` literal (no hsl
literal starts at position 0): merely containing an hsl occurrence
suffices. -/
theorem C10_literal_counterexample :
    Analyzer.parseColorToHSLStr "x hsl(1, 2%, 3%)" = some ⟨1, 2, 3⟩ ∧
    ("x hsl(1, 2%, 3%)" : String).data.head? ≠ some '#' ∧
    Analyzer.hslLitAt ("x hsl(1, 2%, 3%)" : String).data = none := by
  refine ⟨by decide, by decide, by decide⟩

end ColorsLE
